import Mathlib

/-!
Verification of the third-octave IIR filter bank implementation
(`third_octave_filter.cpp`): a shallow embedding of the filter data model
(biquad sections, filter bands, the filter-bank singleton), of the per-sample
processing routines, of the level integrator and of the lifecycle functions,
together with theorems settling the specification claims about them.

Modelling conventions:
* C `float`/`double` values are idealized as exact rationals (`ℚ`); the claims
  under examination are structural (which state is updated, when, by which
  formula), not about floating-point rounding.
* `sqrt` and `log10f` are not rational functions; the level computation is
  parametrized over two arbitrary functions `sqrtF log10F : ℚ → ℚ` standing
  for them.  Every theorem either holds for all choices of these parameters
  or evaluates the model at an explicitly chosen instantiation.
* The global pointer `pFilterBank` is modelled as an `Option third_octave_filter`:
  `none` is the NULL pointer.  Dereferencing `none` (which the C source does
  without a check) is modelled by the distinguished result `ProcResult.nullDeref`.
* Array accesses past a declared capacity (the C source indexes the 2-element
  `sections` array with indices up to `num_sections - 1`, which reaches 3 for
  filter order 4) are undefined behaviour; fallible code is therefore embedded
  in `Option`, with `none` for an out-of-bounds access.
-/

attribute [local semireducible] Rat.add Rat.mul Rat.sub Rat.inv Rat.ofScientific

/-- One second-order IIR stage.  Models `struct BiquadSection`:
`b[3]` numerator coefficients (`b0,b1,b2`), `a[3]` denominator coefficients
(`a0,a1,a2`, `a0` pre-normalized to 1), `z[2]` delay line (`z0,z1`). -/
structure BiquadSection where
  b0 : ℚ
  b1 : ℚ
  b2 : ℚ
  a0 : ℚ
  a1 : ℚ
  a2 : ℚ
  z0 : ℚ
  z1 : ℚ

/-- Componentwise decidable equality (kept cast-free so that concrete
evaluations reduce). -/
instance : DecidableEq BiquadSection := fun a b =>
  decidable_of_iff
    (a.b0 = b.b0 ∧ a.b1 = b.b1 ∧ a.b2 = b.b2 ∧ a.a0 = b.a0 ∧
      a.a1 = b.a1 ∧ a.a2 = b.a2 ∧ a.z0 = b.z0 ∧ a.z1 = b.z1)
    (by cases a; cases b; simp)

/-- Cast-free decidable equality for `Option`, replacing the derived core
instance (whose `Eq.rec` casts block concrete evaluation). -/
instance (priority := 2000) instDecidableEqOptionCF {α : Type} [DecidableEq α] :
    DecidableEq (Option α) := fun a b =>
  match a, b with
  | none, none => isTrue rfl
  | some x, some y => decidable_of_iff (x = y) (by simp)
  | none, some _ => isFalse (by simp)
  | some _, none => isFalse (by simp)

/-- Cast-free decidable equality for pairs, replacing the derived core
instance. -/
instance (priority := 2000) instDecidableEqProdCF {α β : Type}
    [DecidableEq α] [DecidableEq β] : DecidableEq (α × β) := fun a b =>
  decidable_of_iff (a.1 = b.1 ∧ a.2 = b.2) (by cases a; cases b; simp)

/-- Models `struct FilterBand`: `BiquadSection sections[2]` (declared capacity
two sections), `int num_sections`, `double center_freq`. -/
structure FilterBand where
  sections : Fin 2 → BiquadSection
  num_sections : ℕ
  center_freq : ℚ

/-- Componentwise decidable equality (cast-free). -/
instance : DecidableEq FilterBand := fun a b =>
  decidable_of_iff
    (a.sections = b.sections ∧ a.num_sections = b.num_sections ∧
      a.center_freq = b.center_freq)
    (by cases a; cases b; simp)

/-- Models `struct third_octave_filter`.  The `const float alpha = 0.99f`
member is a compile-time constant and is modelled by the definition `alpha`
below rather than by a field. -/
structure third_octave_filter where
  bypass : ℚ
  sample_rate : ℚ
  filter_order : ℤ
  initialized : ℤ
  channelType : ℤ
  bands : Fin 31 → FilterBand
  mic_constant : ℚ
  integrationTime : ℤ
  samplesCount : ℤ
  temporal_sum : Fin 31 → ℚ
  volume_level : Fin 31 → ℚ
  smoothed_level : Fin 31 → ℚ
  maxNumberOfSamples : ℕ

/-- Componentwise decidable equality (cast-free). -/
instance : DecidableEq third_octave_filter := fun a b =>
  decidable_of_iff
    (a.bypass = b.bypass ∧ a.sample_rate = b.sample_rate ∧
      a.filter_order = b.filter_order ∧ a.initialized = b.initialized ∧
      a.channelType = b.channelType ∧ a.bands = b.bands ∧
      a.mic_constant = b.mic_constant ∧ a.integrationTime = b.integrationTime ∧
      a.samplesCount = b.samplesCount ∧ a.temporal_sum = b.temporal_sum ∧
      a.volume_level = b.volume_level ∧ a.smoothed_level = b.smoothed_level ∧
      a.maxNumberOfSamples = b.maxNumberOfSamples)
    (by cases a; cases b; simp)

/-- The smoothing factor: `const float alpha = 0.99f` (idealized as 99/100). -/
def alpha : ℚ := 99 / 100

/-- `processBiquad`: Direct Form I step on one section (source lines 60–66).
Returns the output sample and the section with its delay line advanced. -/
def processBiquad (sec : BiquadSection) (input : ℚ) : ℚ × BiquadSection :=
  let output := sec.b0 * input + sec.z0
  let z0' := sec.b1 * input - sec.a1 * output + sec.z1
  let z1' := sec.b2 * input - sec.a2 * output
  (output, { sec with z0 := z0', z1 := z1' })

/-- The cascade loop of `processFilterBand`: `for (i = 0; i < n; i++)`
running `processBiquad` on `sections[i]`.  `n` is the remaining iteration
count and `i` the current index; an index outside the declared capacity 2
is an out-of-bounds access, modelled as `none`. -/
def bandLoop : ℕ → ℕ → (Fin 2 → BiquadSection) → ℚ → Option (ℚ × (Fin 2 → BiquadSection))
  | 0, _, secs, x => some (x, secs)
  | n + 1, i, secs, x =>
    if h : i < 2 then
      let r := processBiquad (secs ⟨i, h⟩) x
      bandLoop n (i + 1) (Function.update secs ⟨i, h⟩ r.2) r.1
    else
      none

/-- `processFilterBand` (source lines 69–75): cascade the input through the
band's first `num_sections` sections. -/
def processFilterBand (band : FilterBand) (input : ℚ) : Option (ℚ × FilterBand) :=
  (bandLoop band.num_sections 0 band.sections input).map fun r =>
    (r.1, { band with sections := r.2 })

/-- Order-2 table, band 0 (20.0 Hz): transcribed from initializeFilterBank. -/
def band2x0 : FilterBand where
  sections :=
    ![{ b0 := ((45919874983 : ℚ) / 500000000000000000),
        b1 := ((18367949993 : ℚ) / 100000000000000000),
        b2 := ((45919874983 : ℚ) / 500000000000000000),
        a0 := (1 : ℚ),
        a1 := ((-3999056537 : ℚ) / 2000000000),
        a2 := ((99953634283 : ℚ) / 100000000000),
        z0 := 0,
        z1 := 0 },
      { b0 := (1 : ℚ),
        b1 := (-2 : ℚ),
        b2 := (1 : ℚ),
        a0 := (1 : ℚ),
        a1 := ((-19996006861 : ℚ) / 10000000000),
        a2 := ((99960650149 : ℚ) / 100000000000),
        z0 := 0,
        z1 := 0 }]
  num_sections := 2
  center_freq := (20 : ℚ)

/-- Order-2 table, band 1 (25.0 Hz): transcribed from initializeFilterBank. -/
def band2x1 : FilterBand where
  sections :=
    ![{ b0 := ((7174211829 : ℚ) / 50000000000000000),
        b1 := ((28696847317 : ℚ) / 100000000000000000),
        b2 := ((7174211829 : ℚ) / 50000000000000000),
        a0 := (1 : ℚ),
        a1 := ((-4998519617 : ℚ) / 2500000000),
        a2 := ((99942046219 : ℚ) / 100000000000),
        z0 := 0,
        z1 := 0 },
      { b0 := (1 : ℚ),
        b1 := (-2 : ℚ),
        b2 := (1 : ℚ),
        a0 := (1 : ℚ),
        a1 := ((-2499373831 : ℚ) / 1250000000),
        a2 := ((99950815101 : ℚ) / 100000000000),
        z0 := 0,
        z1 := 0 }]
  num_sections := 2
  center_freq := (25 : ℚ)

/-- Order-2 table, band 2 (31.5 Hz): transcribed from initializeFilterBank. -/
def band2x2 : FilterBand where
  sections :=
    ![{ b0 := ((2847048163 : ℚ) / 12500000000000000),
        b1 := ((45552770607 : ℚ) / 100000000000000000),
        b2 := ((2847048163 : ℚ) / 12500000000000000),
        a0 := (1 : ℚ),
        a1 := ((-4998124527 : ℚ) / 2500000000),
        a2 := ((99926983749 : ℚ) / 100000000000),
        z0 := 0,
        z1 := 0 },
      { b0 := (1 : ℚ),
        b1 := (-2 : ℚ),
        b2 := (1 : ℚ),
        a0 := (1 : ℚ),
        a1 := ((-3998731771 : ℚ) / 2000000000),
        a2 := ((99938030979 : ℚ) / 100000000000),
        z0 := 0,
        z1 := 0 }]
  num_sections := 2
  center_freq := ((63 : ℚ) / 2)

/-- Order-2 table, band 3 (40.0 Hz): transcribed from initializeFilterBank. -/
def band2x3 : FilterBand where
  sections :=
    ![{ b0 := ((18360081259 : ℚ) / 50000000000000000),
        b1 := ((18360081259 : ℚ) / 25000000000000000),
        b2 := ((18360081259 : ℚ) / 50000000000000000),
        a0 := (1 : ℚ),
        a1 := ((-9995203057 : ℚ) / 5000000000),
        a2 := ((99907290111 : ℚ) / 100000000000),
        z0 := 0,
        z1 := 0 },
      { b0 := (1 : ℚ),
        b1 := (-2 : ℚ),
        b2 := (1 : ℚ),
        a0 := (1 : ℚ),
        a1 := ((-9995949501 : ℚ) / 5000000000),
        a2 := ((12490164467 : ℚ) / 12500000000),
        z0 := 0,
        z1 := 0 }]
  num_sections := 2
  center_freq := (40 : ℚ)

/-- Order-2 table, band 4 (50.0 Hz): transcribed from initializeFilterBank. -/
def band2x4 : FilterBand where
  sections :=
    ![{ b0 := ((7170370703 : ℚ) / 12500000000000000),
        b1 := ((18356149 : ℚ) / 16000000000000),
        b2 := ((7170370703 : ℚ) / 12500000000000000),
        a0 := (1 : ℚ),
        a1 := ((-1249244259 : ℚ) / 625000000),
        a2 := ((24971031529 : ℚ) / 25000000000),
        z0 := 0,
        z1 := 0 },
      { b0 := (1 : ℚ),
        b1 := (-2 : ℚ),
        b2 := (1 : ℚ),
        a0 := (1 : ℚ),
        a1 := ((-19989802073 : ℚ) / 10000000000),
        a2 := ((99901654301 : ℚ) / 100000000000),
        z0 := 0,
        z1 := 0 }]
  num_sections := 2
  center_freq := (50 : ℚ)

/-- Order-2 table, band 5 (63.0 Hz): transcribed from initializeFilterBank. -/
def band2x5 : FilterBand where
  sections :=
    ![{ b0 := ((91044093041 : ℚ) / 100000000000000000),
        b1 := ((1138051163 : ℚ) / 625000000000000),
        b2 := ((91044093041 : ℚ) / 100000000000000000),
        a0 := (1 : ℚ),
        a1 := ((-1998460133 : ℚ) / 1000000000),
        a2 := ((24963505249 : ℚ) / 25000000000),
        z0 := 0,
        z1 := 0 },
      { b0 := (1 : ℚ),
        b1 := (-2 : ℚ),
        b2 := (1 : ℚ),
        a0 := (1 : ℚ),
        a1 := ((-19987033227 : ℚ) / 10000000000),
        a2 := ((3995044007 : ℚ) / 4000000000),
        z0 := 0,
        z1 := 0 }]
  num_sections := 2
  center_freq := (63 : ℚ)

/-- Order-2 table, band 6 (80.0 Hz): transcribed from initializeFilterBank. -/
def band2x6 : FilterBand where
  sections :=
    ![{ b0 := ((3668872129 : ℚ) / 2500000000000000),
        b1 := ((3668872129 : ℚ) / 1250000000000000),
        b2 := ((3668872129 : ℚ) / 2500000000000000),
        a0 := (1 : ℚ),
        a1 := ((-799207027 : ℚ) / 400000000),
        a2 := ((99814666549 : ℚ) / 100000000000),
        z0 := 0,
        z1 := 0 },
      { b0 := (1 : ℚ),
        b1 := (-2 : ℚ),
        b2 := (1 : ℚ),
        a0 := (1 : ℚ),
        a1 := ((-9991669693 : ℚ) / 5000000000),
        a2 := ((99842693007 : ℚ) / 100000000000),
        z0 := 0,
        z1 := 0 }]
  num_sections := 2
  center_freq := (80 : ℚ)

/-- Order-2 table, band 7 (100.0 Hz): transcribed from initializeFilterBank. -/
def band2x7 : FilterBand where
  sections :=
    ![{ b0 := ((2865079493 : ℚ) / 1250000000000000),
        b1 := ((45841271889 : ℚ) / 10000000000000000),
        b2 := ((2865079493 : ℚ) / 1250000000000000),
        a0 := (1 : ℚ),
        a1 := ((-19974822047 : ℚ) / 10000000000),
        a2 := ((49884193617 : ℚ) / 50000000000),
        z0 := 0,
        z1 := 0 },
      { b0 := (1 : ℚ),
        b1 := (-2 : ℚ),
        b2 := (1 : ℚ),
        a0 := (1 : ℚ),
        a1 := ((-19978887759 : ℚ) / 10000000000),
        a2 := ((49901702293 : ℚ) / 50000000000),
        z0 := 0,
        z1 := 0 }]
  num_sections := 2
  center_freq := (100 : ℚ)

/-- Order-2 table, band 8 (125.0 Hz): transcribed from initializeFilterBank. -/
def band2x8 : FilterBand where
  sections :=
    ![{ b0 := ((2237146213 : ℚ) / 625000000000000),
        b1 := ((2237146213 : ℚ) / 312500000000000),
        b2 := ((2237146213 : ℚ) / 625000000000000),
        a0 := (1 : ℚ),
        a1 := ((-2495988343 : ℚ) / 1250000000),
        a2 := ((99710568599 : ℚ) / 100000000000),
        z0 := 0,
        z1 := 0 },
      { b0 := (1 : ℚ),
        b1 := (-2 : ℚ),
        b2 := (1 : ℚ),
        a0 := (1 : ℚ),
        a1 := ((-4993290569 : ℚ) / 2500000000),
        a2 := ((99754315463 : ℚ) / 100000000000),
        z0 := 0,
        z1 := 0 }]
  num_sections := 2
  center_freq := (125 : ℚ)

/-- Order-2 table, band 9 (160.0 Hz): transcribed from initializeFilterBank. -/
def band2x9 : FilterBand where
  sections :=
    ![{ b0 := ((58601557463 : ℚ) / 10000000000000000),
        b1 := ((11720311493 : ℚ) / 1000000000000000),
        b2 := ((58601557463 : ℚ) / 10000000000000000),
        a0 := (1 : ℚ),
        a1 := ((-2494726123 : ℚ) / 1250000000),
        a2 := ((9962967959 : ℚ) / 10000000000),
        z0 := 0,
        z1 := 0 },
      { b0 := (1 : ℚ),
        b1 := (-2 : ℚ),
        b2 := (1 : ℚ),
        a0 := (1 : ℚ),
        a1 := ((-4991211599 : ℚ) / 2500000000),
        a2 := ((4984281523 : ℚ) / 5000000000),
        z0 := 0,
        z1 := 0 }]
  num_sections := 2
  center_freq := (160 : ℚ)

/-- Order-2 table, band 10 (200.0 Hz): transcribed from initializeFilterBank. -/
def band2x10 : FilterBand where
  sections :=
    ![{ b0 := ((3659466663 : ℚ) / 400000000000000),
        b1 := ((3659466663 : ℚ) / 200000000000000),
        b2 := ((3659466663 : ℚ) / 400000000000000),
        a0 := (1 : ℚ),
        a1 := ((-19945674699 : ℚ) / 10000000000),
        a2 := ((99537316779 : ℚ) / 100000000000),
        z0 := 0,
        z1 := 0 },
      { b0 := (1 : ℚ),
        b1 := (-2 : ℚ),
        b2 := (1 : ℚ),
        a0 := (1 : ℚ),
        a1 := ((-9977457047 : ℚ) / 5000000000),
        a2 := ((49803594899 : ℚ) / 50000000000),
        z0 := 0,
        z1 := 0 }]
  num_sections := 2
  center_freq := (200 : ℚ)

/-- Order-2 table, band 11 (250.0 Hz): transcribed from initializeFilterBank. -/
def band2x11 : FilterBand where
  sections :=
    ![{ b0 := ((571181187 : ℚ) / 40000000000000),
        b1 := ((571181187 : ℚ) / 20000000000000),
        b2 := ((571181187 : ℚ) / 40000000000000),
        a0 := (1 : ℚ),
        a1 := ((-9964808673 : ℚ) / 5000000000),
        a2 := ((24855496587 : ℚ) / 25000000000),
        z0 := 0,
        z1 := 0 },
      { b0 := (1 : ℚ),
        b1 := (-2 : ℚ),
        b2 := (1 : ℚ),
        a0 := (1 : ℚ),
        a1 := ((-19941856867 : ℚ) / 10000000000),
        a2 := ((2487730577 : ℚ) / 2500000000),
        z0 := 0,
        z1 := 0 }]
  num_sections := 2
  center_freq := (250 : ℚ)

/-- Order-2 table, band 12 (315.0 Hz): transcribed from initializeFilterBank. -/
def band2x12 : FilterBand where
  sections :=
    ![{ b0 := ((5659686751 : ℚ) / 250000000000000),
        b1 := ((45277494009 : ℚ) / 1000000000000000),
        b2 := ((5659686751 : ℚ) / 250000000000000),
        a0 := (1 : ℚ),
        a1 := ((-9953634177 : ℚ) / 5000000000),
        a2 := ((99272262119 : ℚ) / 100000000000),
        z0 := 0,
        z1 := 0 },
      { b0 := (1 : ℚ),
        b1 := (-2 : ℚ),
        b2 := (1 : ℚ),
        a0 := (1 : ℚ),
        a1 := ((-9961908993 : ℚ) / 5000000000),
        a2 := ((99382004797 : ℚ) / 100000000000),
        z0 := 0,
        z1 := 0 }]
  num_sections := 2
  center_freq := (315 : ℚ)

/-- Order-2 table, band 13 (400.0 Hz): transcribed from initializeFilterBank. -/
def band2x13 : FilterBand where
  sections :=
    ![{ b0 := ((1457552059 : ℚ) / 40000000000000),
        b1 := ((1457552059 : ℚ) / 20000000000000),
        b2 := ((1457552059 : ℚ) / 40000000000000),
        a0 := (1 : ℚ),
        a1 := ((-9937767443 : ℚ) / 5000000000),
        a2 := ((99076821039 : ℚ) / 100000000000),
        z0 := 0,
        z1 := 0 },
      { b0 := (1 : ℚ),
        b1 := (-2 : ℚ),
        b2 := (1 : ℚ),
        a0 := (1 : ℚ),
        a1 := ((-19898416841 : ℚ) / 10000000000),
        a2 := ((99215875807 : ℚ) / 100000000000),
        z0 := 0,
        z1 := 0 }]
  num_sections := 2
  center_freq := (400 : ℚ)

/-- Order-2 table, band 14 (500.0 Hz): transcribed from initializeFilterBank. -/
def band2x14 : FilterBand where
  sections :=
    ![{ b0 := ((5681450789 : ℚ) / 100000000000000),
        b1 := ((5681450789 : ℚ) / 50000000000000),
        b2 := ((5681450789 : ℚ) / 100000000000000),
        a0 := (1 : ℚ),
        a1 := ((-1983457573 : ℚ) / 1000000000),
        a2 := ((19769480951 : ℚ) / 20000000000),
        z0 := 0,
        z1 := 0 },
      { b0 := (1 : ℚ),
        b1 := (-2 : ℚ),
        b2 := (1 : ℚ),
        a0 := (1 : ℚ),
        a1 := ((-158927291 : ℚ) / 80000000),
        a2 := ((49510381781 : ℚ) / 50000000000),
        z0 := 0,
        z1 := 0 }]
  num_sections := 2
  center_freq := (500 : ℚ)

/-- Order-2 table, band 15 (630.0 Hz): transcribed from initializeFilterBank. -/
def band2x15 : FilterBand where
  sections :=
    ![{ b0 := ((89949759973 : ℚ) / 1000000000000000),
        b1 := ((3597990399 : ℚ) / 20000000000000),
        b2 := ((89949759973 : ℚ) / 1000000000000000),
        a0 := (1 : ℚ),
        a1 := ((-9887748447 : ℚ) / 5000000000),
        a2 := ((98550001917 : ℚ) / 100000000000),
        z0 := 0,
        z1 := 0 },
      { b0 := (1 : ℚ),
        b1 := (-2 : ℚ),
        b2 := (1 : ℚ),
        a0 := (1 : ℚ),
        a1 := ((-1981943211 : ℚ) / 1000000000),
        a2 := ((49383823363 : ℚ) / 50000000000),
        z0 := 0,
        z1 := 0 }]
  num_sections := 2
  center_freq := (630 : ℚ)

/-- Order-2 table, band 16 (800.0 Hz): transcribed from initializeFilterBank. -/
def band2x16 : FilterBand where
  sections :=
    ![{ b0 := ((7226077509 : ℚ) / 50000000000000),
        b1 := ((28904310037 : ℚ) / 100000000000000),
        b2 := ((7226077509 : ℚ) / 50000000000000),
        a0 := (1 : ℚ),
        a1 := ((-19688355849 : ℚ) / 10000000000),
        a2 := ((3067579229 : ℚ) / 3125000000),
        z0 := 0,
        z1 := 0 },
      { b0 := (1 : ℚ),
        b1 := (-2 : ℚ),
        b2 := (1 : ℚ),
        a0 := (1 : ℚ),
        a1 := ((-3950296857 : ℚ) / 2000000000),
        a2 := ((24609382113 : ℚ) / 25000000000),
        z0 := 0,
        z1 := 0 }]
  num_sections := 2
  center_freq := (800 : ℚ)

/-- Order-2 table, band 17 (1000.0 Hz): transcribed from initializeFilterBank. -/
def band2x17 : FilterBand where
  sections :=
    ![{ b0 := ((22486138577 : ℚ) / 100000000000000),
        b1 := ((8994455431 : ℚ) / 20000000000000),
        b2 := ((22486138577 : ℚ) / 100000000000000),
        a0 := (1 : ℚ),
        a1 := ((-19571616553 : ℚ) / 10000000000),
        a2 := ((48854407659 : ℚ) / 50000000000),
        z0 := 0,
        z1 := 0 },
      { b0 := (1 : ℚ),
        b1 := (-2 : ℚ),
        b2 := (1 : ℚ),
        a0 := (1 : ℚ),
        a1 := ((-19661212031 : ℚ) / 10000000000),
        a2 := ((98050392671 : ℚ) / 100000000000),
        z0 := 0,
        z1 := 0 }]
  num_sections := 2
  center_freq := (1000 : ℚ)

/-- Order-2 table, band 18 (1250.0 Hz): transcribed from initializeFilterBank. -/
def band2x18 : FilterBand where
  sections :=
    ![{ b0 := ((2184365001 : ℚ) / 6250000000000),
        b1 := ((69899680031 : ℚ) / 100000000000000),
        b2 := ((2184365001 : ℚ) / 6250000000000),
        a0 := (1 : ℚ),
        a1 := ((-2425539599 : ℚ) / 1250000000),
        a2 := ((97144942329 : ℚ) / 100000000000),
        z0 := 0,
        z1 := 0 },
      { b0 := (1 : ℚ),
        b1 := (-2 : ℚ),
        b2 := (1 : ℚ),
        a0 := (1 : ℚ),
        a1 := ((-1220799631 : ℚ) / 625000000),
        a2 := ((48784141467 : ℚ) / 50000000000),
        z0 := 0,
        z1 := 0 }]
  num_sections := 2
  center_freq := (1250 : ℚ)

/-- Order-2 table, band 19 (1600.0 Hz): transcribed from initializeFilterBank. -/
def band2x19 : FilterBand where
  sections :=
    ![{ b0 := ((56842540279 : ℚ) / 100000000000000),
        b1 := ((1421063507 : ℚ) / 1250000000000),
        b2 := ((56842540279 : ℚ) / 100000000000000),
        a0 := (1 : ℚ),
        a1 := ((-1913082671 : ℚ) / 1000000000),
        a2 := ((24090438541 : ℚ) / 25000000000),
        z0 := 0,
        z1 := 0 },
      { b0 := (1 : ℚ),
        b1 := (-2 : ℚ),
        b2 := (1 : ℚ),
        a0 := (1 : ℚ),
        a1 := ((-19324274349 : ℚ) / 10000000000),
        a2 := ((96896533897 : ℚ) / 100000000000),
        z0 := 0,
        z1 := 0 }]
  num_sections := 2
  center_freq := (1600 : ℚ)

/-- Order-2 table, band 20 (2000.0 Hz): transcribed from initializeFilterBank. -/
def band2x20 : FilterBand where
  sections :=
    ![{ b0 := ((88077669909 : ℚ) / 100000000000000),
        b1 := ((8807766991 : ℚ) / 5000000000000),
        b2 := ((88077669909 : ℚ) / 100000000000000),
        a0 := (1 : ℚ),
        a1 := ((-4690847237 : ℚ) / 2500000000),
        a2 := ((19095158491 : ℚ) / 20000000000),
        z0 := 0,
        z1 := 0 },
      { b0 := (1 : ℚ),
        b1 := (-2 : ℚ),
        b2 := (1 : ℚ),
        a0 := (1 : ℚ),
        a1 := ((-19045584369 : ℚ) / 10000000000),
        a2 := ((19226618349 : ℚ) / 20000000000),
        z0 := 0,
        z1 := 0 }]
  num_sections := 2
  center_freq := (2000 : ℚ)

/-- Order-2 table, band 21 (2500.0 Hz): transcribed from initializeFilterBank. -/
def band2x21 : FilterBand where
  sections :=
    ![{ b0 := ((13620124551 : ℚ) / 10000000000000),
        b1 := ((27240249103 : ℚ) / 10000000000000),
        b2 := ((13620124551 : ℚ) / 10000000000000),
        a0 := (1 : ℚ),
        a1 := ((-1139017897 : ℚ) / 625000000),
        a2 := ((23595595659 : ℚ) / 25000000000),
        z0 := 0,
        z1 := 0 },
      { b0 := (1 : ℚ),
        b1 := (-2 : ℚ),
        b2 := (1 : ℚ),
        a0 := (1 : ℚ),
        a1 := ((-18638026219 : ℚ) / 10000000000),
        a2 := ((5949039197 : ℚ) / 6250000000),
        z0 := 0,
        z1 := 0 }]
  num_sections := 2
  center_freq := (2500 : ℚ)

/-- Order-2 table, band 22 (3150.0 Hz): transcribed from initializeFilterBank. -/
def band2x22 : FilterBand where
  sections :=
    ![{ b0 := ((21336121687 : ℚ) / 10000000000000),
        b1 := ((21336121687 : ℚ) / 5000000000000),
        b2 := ((21336121687 : ℚ) / 10000000000000),
        a0 := (1 : ℚ),
        a1 := ((-17396600701 : ℚ) / 10000000000),
        a2 := ((9298503951 : ℚ) / 10000000000),
        z0 := 0,
        z1 := 0 },
      { b0 := (1 : ℚ),
        b1 := (-2 : ℚ),
        b2 := (1 : ℚ),
        a0 := (1 : ℚ),
        a1 := ((-18013022953 : ℚ) / 10000000000),
        a2 := ((93960162339 : ℚ) / 100000000000),
        z0 := 0,
        z1 := 0 }]
  num_sections := 2
  center_freq := (3150 : ℚ)

/-- Order-2 table, band 23 (4000.0 Hz): transcribed from initializeFilterBank. -/
def band2x23 : FilterBand where
  sections :=
    ![{ b0 := ((33814676189 : ℚ) / 10000000000000),
        b1 := ((67629352377 : ℚ) / 10000000000000),
        b2 := ((33814676189 : ℚ) / 10000000000000),
        a0 := (1 : ℚ),
        a1 := ((-16111845677 : ℚ) / 10000000000),
        a2 := ((91200507593 : ℚ) / 100000000000),
        z0 := 0,
        z1 := 0 },
      { b0 := (1 : ℚ),
        b1 := (-2 : ℚ),
        b2 := (1 : ℚ),
        a0 := (1 : ℚ),
        a1 := ((-4260288537 : ℚ) / 2500000000),
        a2 := ((18474193241 : ℚ) / 20000000000),
        z0 := 0,
        z1 := 0 }]
  num_sections := 2
  center_freq := (4000 : ℚ)

/-- Order-2 table, band 24 (5000.0 Hz): transcribed from initializeFilterBank. -/
def band2x24 : FilterBand where
  sections :=
    ![{ b0 := ((51786052377 : ℚ) / 10000000000000),
        b1 := ((414288419 : ℚ) / 40000000000),
        b2 := ((51786052377 : ℚ) / 10000000000000),
        a0 := (1 : ℚ),
        a1 := ((-14334898271 : ℚ) / 10000000000),
        a2 := ((44583100223 : ℚ) / 50000000000),
        z0 := 0,
        z1 := 0 },
      { b0 := (1 : ℚ),
        b1 := (-2 : ℚ),
        b2 := (1 : ℚ),
        a0 := (1 : ℚ),
        a1 := ((-156894579 : ℚ) / 100000000),
        a2 := ((18102826621 : ℚ) / 20000000000),
        z0 := 0,
        z1 := 0 }]
  num_sections := 2
  center_freq := (5000 : ℚ)

/-- Order-2 table, band 25 (6300.0 Hz): transcribed from initializeFilterBank. -/
def band2x25 : FilterBand where
  sections :=
    ![{ b0 := ((40067620843 : ℚ) / 5000000000000),
        b1 := ((16027048337 : ℚ) / 1000000000000),
        b2 := ((40067620843 : ℚ) / 5000000000000),
        a0 := (1 : ℚ),
        a1 := ((-22772539 : ℚ) / 19531250),
        a2 := ((43316804321 : ℚ) / 50000000000),
        z0 := 0,
        z1 := 0 },
      { b0 := (1 : ℚ),
        b1 := (-2 : ℚ),
        b2 := (1 : ℚ),
        a0 := (1 : ℚ),
        a1 := ((-1704039921 : ℚ) / 1250000000),
        a2 := ((22027792129 : ℚ) / 25000000000),
        z0 := 0,
        z1 := 0 }]
  num_sections := 2
  center_freq := (6300 : ℚ)

/-- Order-2 table, band 26 (8000.0 Hz): transcribed from initializeFilterBank. -/
def band2x26 : FilterBand where
  sections :=
    ![{ b0 := ((12505435661 : ℚ) / 1000000000000),
        b1 := ((12505435661 : ℚ) / 500000000000),
        b2 := ((12505435661 : ℚ) / 1000000000000),
        a0 := (1 : ℚ),
        a1 := ((-76892892667 : ℚ) / 100000000000),
        a2 := ((83529708847 : ℚ) / 100000000000),
        z0 := 0,
        z1 := 0 },
      { b0 := (1 : ℚ),
        b1 := (-2 : ℚ),
        b2 := (1 : ℚ),
        a0 := (1 : ℚ),
        a1 := ((-10520645541 : ℚ) / 10000000000),
        a2 := ((10620544347 : ℚ) / 12500000000),
        z0 := 0,
        z1 := 0 }]
  num_sections := 2
  center_freq := (8000 : ℚ)

/-- Order-2 table, band 27 (10000.0 Hz): transcribed from initializeFilterBank. -/
def band2x27 : FilterBand where
  sections :=
    ![{ b0 := ((1882179187 : ℚ) / 100000000000),
        b1 := ((1882179187 : ℚ) / 50000000000),
        b2 := ((1882179187 : ℚ) / 100000000000),
        a0 := (1 : ℚ),
        a1 := ((-13134442689 : ℚ) / 50000000000),
        a2 := ((40110150207 : ℚ) / 50000000000),
        z0 := 0,
        z1 := 0 },
      { b0 := (1 : ℚ),
        b1 := (-2 : ℚ),
        b2 := (1 : ℚ),
        a0 := (1 : ℚ),
        a1 := ((-4018918917 : ℚ) / 6250000000),
        a2 := ((40602868541 : ℚ) / 50000000000),
        z0 := 0,
        z1 := 0 }]
  num_sections := 2
  center_freq := (10000 : ℚ)

/-- Order-2 table, band 28 (12500.0 Hz): transcribed from initializeFilterBank. -/
def band2x28 : FilterBand where
  sections :=
    ![{ b0 := ((2811076887 : ℚ) / 100000000000),
        b1 := ((-2811076887 : ℚ) / 50000000000),
        b2 := ((2811076887 : ℚ) / 100000000000),
        a0 := (1 : ℚ),
        a1 := ((-2595817879 : ℚ) / 25000000000),
        a2 := ((19072295143 : ℚ) / 25000000000),
        z0 := 0,
        z1 := 0 },
      { b0 := (1 : ℚ),
        b1 := (2 : ℚ),
        b2 := (1 : ℚ),
        a0 := (1 : ℚ),
        a1 := ((14596291 : ℚ) / 39062500),
        a2 := ((7672724789 : ℚ) / 10000000000),
        z0 := 0,
        z1 := 0 }]
  num_sections := 2
  center_freq := (12500 : ℚ)

/-- Order-2 table, band 29 (16000.0 Hz): transcribed from initializeFilterBank. -/
def band2x29 : FilterBand where
  sections :=
    ![{ b0 := ((43369979301 : ℚ) / 1000000000000),
        b1 := ((-86739958603 : ℚ) / 1000000000000),
        b2 := ((43369979301 : ℚ) / 1000000000000),
        a0 := (1 : ℚ),
        a1 := ((30387177071 : ℚ) / 50000000000),
        a2 := ((68364720419 : ℚ) / 100000000000),
        z0 := 0,
        z1 := 0 },
      { b0 := (1 : ℚ),
        b1 := (2 : ℚ),
        b2 := (1 : ℚ),
        a0 := (1 : ℚ),
        a1 := ((11492032881 : ℚ) / 10000000000),
        a2 := ((73744978539 : ℚ) / 100000000000),
        z0 := 0,
        z1 := 0 }]
  num_sections := 2
  center_freq := (16000 : ℚ)

/-- Order-2 table, band 30 (20000.0 Hz): transcribed from initializeFilterBank. -/
def band2x30 : FilterBand where
  sections :=
    ![{ b0 := ((63852757781 : ℚ) / 1000000000000),
        b1 := ((-3192637889 : ℚ) / 25000000000),
        b2 := ((63852757781 : ℚ) / 1000000000000),
        a0 := (1 : ℚ),
        a1 := ((5737538807 : ℚ) / 5000000000),
        a2 := ((52760390543 : ℚ) / 100000000000),
        z0 := 0,
        z1 := 0 },
      { b0 := (1 : ℚ),
        b1 := (2 : ℚ),
        b2 := (1 : ℚ),
        a0 := (1 : ℚ),
        a1 := ((8794895269 : ℚ) / 5000000000),
        a2 := ((40335857463 : ℚ) / 50000000000),
        z0 := 0,
        z1 := 0 }]
  num_sections := 2
  center_freq := (20000 : ℚ)

/-- The 31 order-2 bands assigned by initializeFilterBank when filter_order == 2. -/
def filterBankTable2 : Fin 31 → FilterBand :=
  ![band2x0, band2x1, band2x2, band2x3, band2x4, band2x5, band2x6, band2x7, band2x8, band2x9, band2x10, band2x11, band2x12, band2x13, band2x14, band2x15, band2x16, band2x17, band2x18, band2x19, band2x20, band2x21, band2x22, band2x23, band2x24, band2x25, band2x26, band2x27, band2x28, band2x29, band2x30]

/-- `initializeFilterBank` (source lines 78–1818).  The `filter_order == 2`
branch assigns the order-2 table above (all 31 bands, `num_sections = 2`
each).  The `else` branch (order 4) assigns `num_sections = 4` and writes
`sections[2]` and `sections[3]`, past the declared capacity
`BiquadSection sections[2]` — an out-of-bounds write, modelled as `none`. -/
def initializeFilterBank (filter_order : ℤ) : Option (Fin 31 → FilterBand) :=
  if filter_order = 2 then some filterBankTable2 else none

/-- Transcription of the `num_sections` values assigned by
`initializeFilterBank`: in the `filter_order == 2` branch every one of
`bands[0]…bands[30]` receives `num_sections = 2` (source lines 82…682);
in the `else` (order 4) branch every band receives `num_sections = 4`
(source lines 703…1783). -/
def initializeFilterBank_num_sections (filter_order : ℤ) (_band : Fin 31) : ℕ :=
  if filter_order = 2 then 2 else 4

/-- Transcription of the largest section index written by
`initializeFilterBank`: the order-2 branch writes `sections[0]` and
`sections[1]` of every band; the order-4 branch writes `sections[0]`
through `sections[3]` of every band. -/
def initializeFilterBank_max_section_index (filter_order : ℤ) : ℕ :=
  if filter_order = 2 then 1 else 3

/-- The inner loop of `resetFilterState`:
`for (section = 0; section < num_sections; section++)` zeroing `z[0]`,`z[1]`.
An index outside the declared capacity 2 is out of bounds (`none`). -/
def resetBandSections : ℕ → ℕ → (Fin 2 → BiquadSection) → Option (Fin 2 → BiquadSection)
  | 0, _, secs => some secs
  | n + 1, i, secs =>
    if h : i < 2 then
      let s := secs ⟨i, h⟩
      resetBandSections n (i + 1) (Function.update secs ⟨i, h⟩ { s with z0 := 0, z1 := 0 })
    else
      none

/-- One band of `resetFilterState`'s outer loop. -/
def resetBandStep (bands : Fin 31 → FilterBand) (band : Fin 31) : Option (Fin 31 → FilterBand) :=
  (resetBandSections (bands band).num_sections 0 (bands band).sections).map fun secs =>
    Function.update bands band { bands band with sections := secs }

/-- `resetFilterState` (source lines 1820–1829): clear every delay line of
every band (sections `0 … num_sections-1`), then set `initialized = 1`. -/
def resetFilterState (fb : third_octave_filter) : Option third_octave_filter :=
  ((List.finRange 31).foldlM resetBandStep fb.bands).map fun bands' =>
    { fb with bands := bands', initialized := 1 }

/-- `calculateSamplesIntegration` (source lines 1831–1833):
`maxNumberOfSamples = (uint64_t)((sample_rate / 1000) * integrationTime)`.
The C cast truncates; for non-negative values that is the floor. -/
def calculateSamplesIntegration (fb : third_octave_filter) : third_octave_filter :=
  { fb with maxNumberOfSamples := (⌊(fb.sample_rate / 1000) * (fb.integrationTime : ℚ)⌋).toNat }

/-- The RMS value `sqrt(temporal_sum[band] / samplesCount)` computed at
source line 1840, with `sqrtF` standing for `sqrt`. -/
def rms_at (sqrtF : ℚ → ℚ) (fb : third_octave_filter) (band : Fin 31) : ℚ :=
  sqrtF (fb.temporal_sum band / (fb.samplesCount : ℚ))

/-- The instantaneous level `10*log10f(rms) + mic_constant` computed at
source line 1842, with `log10F` standing for `log10f`. -/
def level_db_at (sqrtF log10F : ℚ → ℚ) (fb : third_octave_filter) (band : Fin 31) : ℚ :=
  10 * log10F (rms_at sqrtF fb band) + fb.mic_constant

/-- The body of `calculateLevel`'s band loop (source lines 1838–1854).
Everything is guarded by `samplesCount > 0`; inside the guard the code
computes `rms` and `level_db` (the latter is never stored anywhere),
updates the smoothed level from the previously published `volume_level`,
publishes it, resets the band's `temporal_sum` — and resets the shared
`samplesCount` to zero inside the loop body. -/
def calculateLevelBandStep (sqrtF log10F : ℚ → ℚ) (fb : third_octave_filter)
    (band : Fin 31) : third_octave_filter :=
  if 0 < fb.samplesCount then
    let _rms := rms_at sqrtF fb band
    let _level_db := level_db_at sqrtF log10F fb band
    let newSmoothed :=
      if fb.smoothed_level band = 0 then
        fb.volume_level band
      else
        alpha * fb.volume_level band + (1 - alpha) * fb.smoothed_level band
    { fb with
      smoothed_level := Function.update fb.smoothed_level band newSmoothed,
      volume_level := Function.update fb.volume_level band newSmoothed,
      temporal_sum := Function.update fb.temporal_sum band 0,
      samplesCount := 0 }
  else
    fb

/-- `calculateLevel` (source lines 1835–1857): run the band loop over all 31
bands, then reset `samplesCount` once more after the loop. -/
def calculateLevel (sqrtF log10F : ℚ → ℚ) (fb : third_octave_filter) : third_octave_filter :=
  let fb' := (List.finRange 31).foldl (calculateLevelBandStep sqrtF log10F) fb
  { fb' with samplesCount := 0 }

/-- One band of the mono (left- or right-channel) accumulation loop
(source lines 1911–1916 / 1933–1938): filter the sample through the band and
add the squared output to the band's temporal sum. -/
def monoBandStep (x : ℚ) (fb : third_octave_filter) (band : Fin 31) :
    Option third_octave_filter :=
  (processFilterBand (fb.bands band) x).map fun r =>
    { fb with
      bands := Function.update fb.bands band r.2,
      temporal_sum := Function.update fb.temporal_sum band (fb.temporal_sum band + r.1 ^ 2) }

/-- The per-band accumulation loop over all 31 bands for one mono sample. -/
def accumulateBands (fb : third_octave_filter) (x : ℚ) : Option third_octave_filter :=
  (List.finRange 31).foldlM (monoBandStep x) fb

/-- One full mono sample step (loop body of the LEFT/RIGHT cases, source
lines 1906–1924 / 1928–1946): accumulate over all bands, increment
`samplesCount`, and when it reaches `maxNumberOfSamples` run
`calculateLevel`.  The second component counts the `calculateLevel`
invocations (ghost instrumentation, no effect on the state). -/
def sampleStep (sqrtF log10F : ℚ → ℚ) (fb : third_octave_filter) (x : ℚ) :
    Option (third_octave_filter × ℕ) :=
  (accumulateBands fb x).map fun fb1 =>
    let fb2 := { fb1 with samplesCount := fb1.samplesCount + 1 }
    if (fb2.maxNumberOfSamples : ℤ) ≤ fb2.samplesCount then
      (calculateLevel sqrtF log10F fb2, 1)
    else
      (fb2, 0)

/-- One band of the stereo accumulation loop (source lines 1955–1961): the
left sample, then the right sample, are filtered through the *same* band
(the right pass starting from the state the left pass produced), and both
squared outputs are added to the same temporal sum. -/
def stereoBandStep (l r : ℚ) (fb : third_octave_filter) (band : Fin 31) :
    Option third_octave_filter :=
  (processFilterBand (fb.bands band) l).bind fun rl =>
    (processFilterBand rl.2 r).map fun rr =>
      { fb with
        bands := Function.update fb.bands band rr.2,
        temporal_sum :=
          Function.update fb.temporal_sum band
            ((fb.temporal_sum band + rl.1 ^ 2) + rr.1 ^ 2) }

/-- One full stereo pair step (loop body of the STEREO case, source lines
1950–1969): accumulate both channels over all bands, increment
`samplesCount` by 2, and when it reaches `maxNumberOfSamples` run
`calculateLevel`.  Ghost trigger count as in `sampleStep`. -/
def stereoPairStep (sqrtF log10F : ℚ → ℚ) (fb : third_octave_filter) (l r : ℚ) :
    Option (third_octave_filter × ℕ) :=
  ((List.finRange 31).foldlM (stereoBandStep l r) fb).map fun fb1 =>
    let fb2 := { fb1 with samplesCount := fb1.samplesCount + 2 }
    if (fb2.maxNumberOfSamples : ℤ) ≤ fb2.samplesCount then
      (calculateLevel sqrtF log10F fb2, 1)
    else
      (fb2, 0)

/-- LEFT_CHANNEL loop (source lines 1906–1924): `for (i = 0; i < size; i += 2)`
reading `data[i]` — the even-indexed (left) samples. -/
def processLeft (sqrtF log10F : ℚ → ℚ) :
    third_octave_filter → List ℚ → Option (third_octave_filter × ℕ)
  | fb, [] => some (fb, 0)
  | fb, [x] => sampleStep sqrtF log10F fb x
  | fb, x :: _ :: rest =>
    (sampleStep sqrtF log10F fb x).bind fun r =>
      (processLeft sqrtF log10F r.1 rest).map fun r2 => (r2.1, r.2 + r2.2)

/-- RIGHT_CHANNEL loop (source lines 1928–1946): `for (i = 1; i < size; i += 2)`
reading `data[i]` — the odd-indexed (right) samples. -/
def processRight (sqrtF log10F : ℚ → ℚ) :
    third_octave_filter → List ℚ → Option (third_octave_filter × ℕ)
  | fb, [] => some (fb, 0)
  | fb, [_] => some (fb, 0)
  | fb, _ :: y :: rest =>
    (sampleStep sqrtF log10F fb y).bind fun r =>
      (processRight sqrtF log10F r.1 rest).map fun r2 => (r2.1, r.2 + r2.2)

/-- STEREO_CHANNEL loop (source lines 1950–1969): `for (i = 0; i < size; i += 2)`
reading `data[i]` and `data[i+1]`.  On an odd-length buffer the final
iteration reads `data[size]`, one past the end — out of bounds (`none`). -/
def processStereo (sqrtF log10F : ℚ → ℚ) :
    third_octave_filter → List ℚ → Option (third_octave_filter × ℕ)
  | fb, [] => some (fb, 0)
  | _, [_] => none
  | fb, l :: r :: rest =>
    (stereoPairStep sqrtF log10F fb l r).bind fun p =>
      (processStereo sqrtF log10F p.1 rest).map fun p2 => (p2.1, p.2 + p2.2)

/-- Result of a `third_octave_filter_process` call.  `ok fb t` is a normal
return with final bank state `fb` and ghost `calculateLevel` count `t`;
`nullDeref` is the dereference of `pFilterBank == NULL` (the source reads
`pFilterBank->bypass` with no null check); `outOfBounds` is a section-array
access past its capacity during processing. -/
inductive ProcResult where
  | ok : third_octave_filter → ℕ → ProcResult
  | nullDeref : ProcResult
  | outOfBounds : ProcResult
deriving DecidableEq

/-- Lift the channel-loop result to a `ProcResult`. -/
def toProcResult : Option (third_octave_filter × ℕ) → ProcResult
  | none => ProcResult.outOfBounds
  | some (fb, t) => ProcResult.ok fb t

/-- `third_octave_filter_process` (source lines 1896–1975).  The first
statement reads `pFilterBank->bypass` unconditionally, so a NULL bank is a
null dereference.  With the bank present: if `bypass == 1` return at once
(the buffer is never written in any path); otherwise switch on
`channelType` (LEFT = 0, RIGHT = 1, STEREO = 2, default: do nothing). -/
def third_octave_filter_process (sqrtF log10F : ℚ → ℚ)
    (pFilterBank : Option third_octave_filter) (data : List ℚ) : ProcResult :=
  match pFilterBank with
  | none => ProcResult.nullDeref
  | some fb =>
    if fb.bypass = 1 then
      ProcResult.ok fb 0
    else if fb.channelType = 0 then
      toProcResult (processLeft sqrtF log10F fb data)
    else if fb.channelType = 1 then
      toProcResult (processRight sqrtF log10F fb data)
    else if fb.channelType = 2 then
      toProcResult (processStereo sqrtF log10F fb data)
    else
      ProcResult.ok fb 0

/-- `third_octave_filter_alloc` (source lines 1859–1886).  Every field of the
(possibly freshly malloc'd) singleton is overwritten, so the result does not
depend on the previous pointer state.  Field values follow the source:
`bypass = 1`, invalid orders default to 2, `channelType = LEFT`,
`initializeFilterBank`, `resetFilterState` (which sets `initialized = 1`),
`mic_constant = 120`, `integrationTime = 125`, zeroed accumulators and
levels, and the integration threshold computed twice (line 1883 and
`calculateSamplesIntegration`) with the same value. -/
def third_octave_filter_alloc (sample_rate : ℚ) (filter_order : ℤ) :
    Option third_octave_filter :=
  let ord := if filter_order = 2 ∨ filter_order = 4 then filter_order else 2
  (initializeFilterBank ord).bind fun bands0 =>
    let fb0 : third_octave_filter :=
      { bypass := 1
        sample_rate := sample_rate
        filter_order := ord
        initialized := 0
        channelType := 0
        bands := bands0
        mic_constant := 120
        integrationTime := 125
        samplesCount := 0
        temporal_sum := fun _ => 0
        volume_level := fun _ => 0
        smoothed_level := fun _ => 0
        maxNumberOfSamples := (⌊(sample_rate / 1000) * (125 : ℚ)⌋).toNat }
    (resetFilterState fb0).map calculateSamplesIntegration

/-- `third_octave_filter_free` (source lines 1888–1893): frees the singleton
if present; in either case the global pointer ends up NULL. -/
def third_octave_filter_free : Option third_octave_filter → Option third_octave_filter
  | some _ => none
  | none => none

/-- Interleave a list of stereo pairs into a flat buffer (left then right),
as the C caller lays an interleaved stereo buffer out in memory. -/
def flattenPairs : List (ℚ × ℚ) → List ℚ
  | [] => []
  | (l, r) :: ps => l :: r :: flattenPairs ps

/-- Number of samples the LEFT_CHANNEL loop consumes from a buffer of the
given layout: one per `i += 2` iteration, i.e. ⌈length/2⌉. -/
def numLeftSamples : List ℚ → ℕ
  | [] => 0
  | [_] => 1
  | _ :: _ :: rest => 1 + numLeftSamples rest

/-- All 31 bands have a section count within the declared capacity of the
`sections` array. -/
def SectionsOK (fb : third_octave_filter) : Prop :=
  ∀ band : Fin 31, (fb.bands band).num_sections ≤ 2

instance : DecidablePred SectionsOK := fun fb =>
  inferInstanceAs (Decidable (∀ band : Fin 31, (fb.bands band).num_sections ≤ 2))

/-- Every band's published and smoothed levels are zero. -/
def ZeroLevels (fb : third_octave_filter) : Prop :=
  ∀ band : Fin 31, fb.volume_level band = 0 ∧ fb.smoothed_level band = 0

instance : DecidablePred ZeroLevels := fun fb =>
  inferInstanceAs
    (Decidable (∀ band : Fin 31, fb.volume_level band = 0 ∧ fb.smoothed_level band = 0))

/-- Bank states reachable through the public lifecycle: a successful
allocation, a completed processing call, or a configuration change (the
configuration surface `third_octave_filter_setValue` is declared in the
header but not defined in the source; it is modelled abstractly as an
arbitrary update of the configuration fields, which is the widest effect a
setter of those fields can have). -/
inductive ReachableState : third_octave_filter → Prop where
  | alloc : ∀ (sample_rate : ℚ) (filter_order : ℤ) (fb : third_octave_filter),
      third_octave_filter_alloc sample_rate filter_order = some fb → ReachableState fb
  | process : ∀ (sqrtF log10F : ℚ → ℚ) (fb : third_octave_filter) (data : List ℚ)
      (fb' : third_octave_filter) (t : ℕ), ReachableState fb →
      third_octave_filter_process sqrtF log10F (some fb) data = ProcResult.ok fb' t →
      ReachableState fb'
  | config : ∀ (fb : third_octave_filter) (bp mc : ℚ) (ch it : ℤ) (ms : ℕ),
      ReachableState fb →
      ReachableState { fb with bypass := bp, channelType := ch, mic_constant := mc,
                               integrationTime := it, maxNumberOfSamples := ms }

/-- A band whose coefficients and delays are all zero, with the order-2
section count; used to evaluate the processing model on concrete inputs. -/
def zeroBand : FilterBand where
  sections :=
    ![{ b0 := 0, b1 := 0, b2 := 0, a0 := 0, a1 := 0, a2 := 0, z0 := 0, z1 := 0 },
      { b0 := 0, b1 := 0, b2 := 0, a0 := 0, a1 := 0, a2 := 0, z0 := 0, z1 := 0 }]
  num_sections := 2
  center_freq := 0

/-- A concrete bank state sitting exactly at a window boundary
(`samplesCount = maxNumberOfSamples = 6000`) with the same accumulated
sum 24000 in every band and all levels still at their initial zero;
used to evaluate the level-reduction path. -/
def boundaryBank : third_octave_filter where
  bypass := 0
  sample_rate := 48000
  filter_order := 2
  initialized := 1
  channelType := 0
  bands := filterBankTable2
  mic_constant := 120
  integrationTime := 125
  samplesCount := 6000
  temporal_sum := fun _ => 24000
  volume_level := fun _ => 0
  smoothed_level := fun _ => 0
  maxNumberOfSamples := 6000

/-- The per-pair stereo accumulation without the window-boundary logic: the
band loop of the STEREO case followed by the `samplesCount += 2` increment.
`third_octave_filter_process` in stereo mode is proved below to be the fold
of this step over the interleaved pairs whenever no boundary is crossed. -/
def stereoAccumPair (fb : third_octave_filter) (lr : ℚ × ℚ) : Option third_octave_filter :=
  ((List.finRange 31).foldlM (stereoBandStep lr.1 lr.2) fb).map fun fb1 =>
    { fb1 with samplesCount := fb1.samplesCount + 2 }

/-- A concrete freshly-integrating bank: bypass disabled, left channel,
threshold 6000 (the 48 kHz / 125 ms configuration), zeroed accumulators and
simple zero-coefficient bands; used to instantiate the processing theorems. -/
def leftBank : third_octave_filter where
  bypass := 0
  sample_rate := 48000
  filter_order := 2
  initialized := 1
  channelType := 0
  bands := fun _ => zeroBand
  mic_constant := 120
  integrationTime := 125
  samplesCount := 0
  temporal_sum := fun _ => 0
  volume_level := fun _ => 0
  smoothed_level := fun _ => 0
  maxNumberOfSamples := 6000

/-! ## Helper lemmas -/

theorem bandLoop_isSome (n : ℕ) :
    ∀ (i : ℕ) (secs : Fin 2 → BiquadSection) (x : ℚ), i + n ≤ 2 →
      ∃ r, bandLoop n i secs x = some r := by
  induction n with
  | zero => intro i secs x _; exact ⟨(x, secs), rfl⟩
  | succ n ih =>
    intro i secs x h
    have hi : i < 2 := by omega
    have h' : i + 1 + n ≤ 2 := by omega
    obtain ⟨r, hr⟩ := ih (i + 1)
      (Function.update secs ⟨i, hi⟩ (processBiquad (secs ⟨i, hi⟩) x).2)
      (processBiquad (secs ⟨i, hi⟩) x).1 h'
    exact ⟨r, by simpa [bandLoop, hi] using hr⟩

theorem processFilterBand_num_sections {band : FilterBand} {x y : ℚ} {band' : FilterBand}
    (h : processFilterBand band x = some (y, band')) :
    band'.num_sections = band.num_sections ∧ band'.center_freq = band.center_freq := by
  unfold processFilterBand at h
  rw [Option.map_eq_some'] at h
  obtain ⟨r, _, hr⟩ := h
  obtain ⟨-, rfl⟩ := Prod.mk.injEq .. ▸ hr
  exact ⟨rfl, rfl⟩

theorem processFilterBand_some {band : FilterBand} (x : ℚ)
    (h : band.num_sections ≤ 2) :
    ∃ y band', processFilterBand band x = some (y, band') ∧
      band'.num_sections = band.num_sections := by
  obtain ⟨⟨y, secs⟩, hr⟩ := bandLoop_isSome band.num_sections 0 band.sections x (by omega)
  refine ⟨y, { band with sections := secs }, ?_, rfl⟩
  unfold processFilterBand
  rw [hr, Option.map_some']

theorem foldlM_some_of_inv {σ α : Type} (P : σ → Prop) (f : σ → α → Option σ)
    (hstep : ∀ s a, P s → ∃ s', f s a = some s' ∧ P s') :
    ∀ (l : List α) (s : σ), P s → ∃ s', List.foldlM f s l = some s' ∧ P s' := by
  intro l
  induction l with
  | nil => intro s hs; exact ⟨s, rfl, hs⟩
  | cons a l ih =>
    intro s hs
    obtain ⟨s1, h1, hP1⟩ := hstep s a hs
    obtain ⟨s2, h2, hP2⟩ := ih s1 hP1
    exact ⟨s2, by simp [List.foldlM, h1, h2], hP2⟩

theorem foldlM_pres {σ α : Type} (P : σ → Prop) (f : σ → α → Option σ)
    (hstep : ∀ s a s', f s a = some s' → P s → P s') :
    ∀ (l : List α) (s s' : σ), List.foldlM f s l = some s' → P s → P s' := by
  intro l
  induction l with
  | nil => intro s s' h hs; simp only [List.foldlM] at h; cases h; exact hs
  | cons a l ih =>
    intro s s' h hs
    simp only [List.foldlM] at h
    cases h1 : f s a with
    | none => rw [h1] at h; exact absurd h (by simp)
    | some s1 =>
      rw [h1] at h
      exact ih s1 s' h (hstep s a s1 h1 hs)

theorem resetBandStep_num_sections {bands : Fin 31 → FilterBand} {b : Fin 31}
    {bands' : Fin 31 → FilterBand} (h : resetBandStep bands b = some bands') :
    ∀ band, (bands' band).num_sections = (bands band).num_sections := by
  unfold resetBandStep at h
  rw [Option.map_eq_some'] at h
  obtain ⟨secs, -, rfl⟩ := h
  intro band
  by_cases hb : band = b
  · subst hb; simp [Function.update_same]
  · simp [Function.update_noteq hb]

theorem resetFilterState_num_sections {fb fb' : third_octave_filter}
    (h : resetFilterState fb = some fb') :
    ∀ band, (fb'.bands band).num_sections = (fb.bands band).num_sections := by
  unfold resetFilterState at h
  rw [Option.map_eq_some'] at h
  obtain ⟨bands', hf, rfl⟩ := h
  exact foldlM_pres
    (fun bs => ∀ band, (bs band).num_sections = (fb.bands band).num_sections)
    resetBandStep
    (fun bs a bs' hstep hP band => by rw [resetBandStep_num_sections hstep band, hP band])
    (List.finRange 31) fb.bands bands' hf (fun _ => rfl)

/-! ## Claim theorems -/

/-- C10: `processBiquad` returns exactly `y = b0*x + z0`, and afterwards the
delay state holds `z0' = b1*x - a1*y + z1` and `z1' = b2*x - a2*y`, with all
coefficients unchanged; the function is total, so there is no error
condition. -/
theorem c10_biquad_recurrence (s : BiquadSection) (x : ℚ) :
    (processBiquad s x).1 = s.b0 * x + s.z0 ∧
    (processBiquad s x).2.z0 = s.b1 * x - s.a1 * (processBiquad s x).1 + s.z1 ∧
    (processBiquad s x).2.z1 = s.b2 * x - s.a2 * (processBiquad s x).1 ∧
    (processBiquad s x).2.b0 = s.b0 ∧ (processBiquad s x).2.b1 = s.b1 ∧
    (processBiquad s x).2.b2 = s.b2 ∧ (processBiquad s x).2.a0 = s.a0 ∧
    (processBiquad s x).2.a1 = s.a1 ∧ (processBiquad s x).2.a2 = s.a2 :=
  ⟨rfl, rfl, rfl, rfl, rfl, rfl, rfl, rfl, rfl⟩

/-- C9: with the bypass flag enabled (`bypass == 1`) a process call returns
immediately: the resulting bank state is the input state unchanged (all
delay lines, temporal sums, the sample count and both level arrays), no
level computation is triggered, and no path of the routine writes to the
input buffer. -/
theorem c9_bypass_noop (sqrtF log10F : ℚ → ℚ) (fb : third_octave_filter)
    (data : List ℚ) (h : fb.bypass = 1) :
    third_octave_filter_process sqrtF log10F (some fb) data = ProcResult.ok fb 0 := by
  simp [third_octave_filter_process, h]

/-- Witness for C9 at a concrete bank and buffer. -/
theorem c9_bypass_noop_witness :
    ({ boundaryBank with bypass := 1 } : third_octave_filter).bypass = 1 ∧
    third_octave_filter_process id id (some { boundaryBank with bypass := 1 }) [1, 2] =
      ProcResult.ok { boundaryBank with bypass := 1 } 0 :=
  ⟨rfl, c9_bypass_noop id id _ [1, 2] rfl⟩

/-- C5 (refuting the claim): `third_octave_filter_process` reads
`pFilterBank->bypass` with no null check, so calling it with the bank
unallocated — never allocated, or after `third_octave_filter_free` —
dereferences the NULL pointer (`ProcResult.nullDeref`); no defined
"not initialized" failure path exists in the routine. -/
theorem c5_process_null_deref (sqrtF log10F : ℚ → ℚ)
    (p : Option third_octave_filter) (data : List ℚ) :
    third_octave_filter_process sqrtF log10F (third_octave_filter_free p) data =
        ProcResult.nullDeref ∧
    third_octave_filter_process sqrtF log10F none data = ProcResult.nullDeref := by
  cases p <;> exact ⟨rfl, rfl⟩

set_option maxRecDepth 400000 in
/-- C1 (refuting the claim on the code): `calculateLevel` resets the shared
`samplesCount` to zero inside the per-band loop (source line 1853), so after
band 0 every later band fails the `samplesCount > 0` guard.  At the concrete
boundary state `boundaryBank` (all 31 temporal sums equal to 24000,
`samplesCount` at the threshold) only band 0's sum is reset: band 1's and
band 30's sums stay 24000 and their level update never runs, for any choice
of the square-root and logarithm functions (instantiated here with `id`). -/
theorem c1_level_reduction_only_band0 :
    (calculateLevel id id boundaryBank).temporal_sum 0 = 0 ∧
    (calculateLevel id id boundaryBank).temporal_sum 1 = 24000 ∧
    (calculateLevel id id boundaryBank).temporal_sum 30 = 24000 ∧
    (calculateLevel id id boundaryBank).samplesCount = 0 ∧
    (24000 : ℚ) ≠ 0 := by decide

set_option maxRecDepth 400000 in
/-- C2 (refuting the claim on the code): on the very first update for a band
(`smoothed_level == 0`) the code assigns `smoothed_level[band] =
volume_level[band]` — the previously published level, still zero — and the
instantaneous `level_db` computed in the same update (here
`10*log10(sqrt(24000/6000)) + 120`, which is 160 under the `id`
instantiation of both math functions) is discarded, never stored. -/
theorem c2_first_update_ignores_level_db :
    (calculateLevel id id boundaryBank).smoothed_level 0 = 0 ∧
    (calculateLevel id id boundaryBank).volume_level 0 = 0 ∧
    level_db_at id id boundaryBank 0 = 160 ∧
    (0 : ℚ) ≠ 160 := by decide

set_option maxRecDepth 400000 in
/-- C3 counterexample: the claim's section counts are wrong on the code.  In
the order-2 branch band 0 is assigned `num_sections = 2`, not 1; in the
order-4 branch band 0 is assigned `num_sections = 4`, not 2. -/
theorem c3_counterexample :
    (filterBankTable2 0).num_sections ≠ 1 ∧
    initializeFilterBank_num_sections 4 0 ≠ 2 := by decide

/-- C3 amended: after `initializeFilterBank`, every one of the 31 bands has
`num_sections = 2` when the filter order is 2 and `num_sections = 4` when it
is 4 (the latter exceeding the declared two-section capacity), and the
section count of a band is preserved for the lifetime of the bank:
`processFilterBand` and `resetFilterState` never change it. -/
theorem c3_amended_section_counts :
    (∀ band : Fin 31, (filterBankTable2 band).num_sections = 2) ∧
    (∀ band : Fin 31, initializeFilterBank_num_sections 4 band = 4) ∧
    (∀ (band : FilterBand) (x y : ℚ) (band' : FilterBand),
      processFilterBand band x = some (y, band') →
        band'.num_sections = band.num_sections) ∧
    (∀ fb fb' : third_octave_filter, resetFilterState fb = some fb' →
      ∀ band, (fb'.bands band).num_sections = (fb.bands band).num_sections) := by
  refine ⟨by decide, by decide, ?_, ?_⟩
  · intro band x y band' h
    exact (processFilterBand_num_sections h).1
  · intro fb fb' h
    exact resetFilterState_num_sections h

set_option maxRecDepth 400000 in
/-- Witness for C3's amended claim at concrete inputs: a concrete
`processFilterBand` run and a concrete `resetFilterState` run, with the
preservation conclusions instantiated on them. -/
theorem c3_amended_witness :
    processFilterBand zeroBand 1 = some (0, zeroBand) ∧
    resetFilterState boundaryBank = some boundaryBank ∧
    (filterBankTable2 0).num_sections = 2 ∧
    initializeFilterBank_num_sections 4 0 = 4 ∧
    zeroBand.num_sections = zeroBand.num_sections ∧
    (boundaryBank.bands 0).num_sections = (boundaryBank.bands 0).num_sections := by
  have h1 : processFilterBand zeroBand 1 = some (0, zeroBand) := by decide
  have h2 : resetFilterState boundaryBank = some boundaryBank := by decide
  exact ⟨h1, h2, c3_amended_section_counts.1 0, c3_amended_section_counts.2.1 0,
    c3_amended_section_counts.2.2.1 zeroBand 1 0 zeroBand h1,
    c3_amended_section_counts.2.2.2 boundaryBank boundaryBank h2 0⟩

set_option maxRecDepth 400000 in
/-- C4 (refuting the claim on the code): for filter order 2 the largest
section index touched is 1, within the capacity of 2 — but for filter order
4 `initializeFilterBank` writes `sections[3]` (index 3 ≥ 2), every band's
`num_sections` is 4, and the reads in `processFilterBand` and
`resetFilterState`, iterating `section < num_sections`, run past the
2-element array (modelled as the out-of-bounds result `none`). -/
theorem c4_section_access_out_of_bounds :
    initializeFilterBank_max_section_index 2 < 2 ∧
    initializeFilterBank_max_section_index 4 = 3 ∧
    ¬ initializeFilterBank_max_section_index 4 < 2 ∧
    initializeFilterBank_num_sections 4 0 = 4 ∧
    processFilterBand { zeroBand with num_sections := 4 } 1 = none ∧
    resetFilterState
      { boundaryBank with bands := fun _ => { zeroBand with num_sections := 4 } } =
      none := by decide

theorem calculateLevel_samplesCount (f g : ℚ → ℚ) (fb : third_octave_filter) :
    (calculateLevel f g fb).samplesCount = 0 := rfl

set_option maxRecDepth 4000 in
theorem calculateLevelBandStep_fields (f g : ℚ → ℚ) (fb : third_octave_filter) (b : Fin 31) :
    (calculateLevelBandStep f g fb b).bands = fb.bands ∧
    (calculateLevelBandStep f g fb b).maxNumberOfSamples = fb.maxNumberOfSamples ∧
    (calculateLevelBandStep f g fb b).bypass = fb.bypass ∧
    (calculateLevelBandStep f g fb b).channelType = fb.channelType := by
  unfold calculateLevelBandStep
  split <;> exact ⟨rfl, rfl, rfl, rfl⟩

theorem levelLoop_fields (f g : ℚ → ℚ) :
    ∀ (l : List (Fin 31)) (fb : third_octave_filter),
      (l.foldl (calculateLevelBandStep f g) fb).bands = fb.bands ∧
      (l.foldl (calculateLevelBandStep f g) fb).maxNumberOfSamples = fb.maxNumberOfSamples ∧
      (l.foldl (calculateLevelBandStep f g) fb).bypass = fb.bypass ∧
      (l.foldl (calculateLevelBandStep f g) fb).channelType = fb.channelType := by
  intro l
  induction l with
  | nil => intro fb; exact ⟨rfl, rfl, rfl, rfl⟩
  | cons a l ih =>
    intro fb
    have h1 := calculateLevelBandStep_fields f g fb a
    have h2 := ih (calculateLevelBandStep f g fb a)
    simp only [List.foldl_cons]
    exact ⟨h2.1.trans h1.1, h2.2.1.trans h1.2.1, h2.2.2.1.trans h1.2.2.1,
      h2.2.2.2.trans h1.2.2.2⟩

set_option maxRecDepth 100000 in
theorem calculateLevel_fields (f g : ℚ → ℚ) (fb : third_octave_filter) :
    (calculateLevel f g fb).bands = fb.bands ∧
    (calculateLevel f g fb).maxNumberOfSamples = fb.maxNumberOfSamples ∧
    (calculateLevel f g fb).bypass = fb.bypass ∧
    (calculateLevel f g fb).channelType = fb.channelType :=
  levelLoop_fields f g (List.finRange 31) fb

set_option maxRecDepth 4000 in
theorem calculateLevelBandStep_zero {fb : third_octave_filter} (f g : ℚ → ℚ) (b : Fin 31)
    (h : ZeroLevels fb) : ZeroLevels (calculateLevelBandStep f g fb b) := by
  unfold calculateLevelBandStep
  split
  · intro band
    have hb0 := h b
    have hband := h band
    by_cases hb : band = b
    · subst hb
      simp [Function.update_same, hb0.1, hb0.2]
    · simp [Function.update_noteq hb, hband.1, hband.2]
  · exact h

theorem levelLoop_zero (f g : ℚ → ℚ) :
    ∀ (l : List (Fin 31)) {fb : third_octave_filter}, ZeroLevels fb →
      ZeroLevels (l.foldl (calculateLevelBandStep f g) fb) := by
  intro l
  induction l with
  | nil => intro fb h; exact h
  | cons a l ih => intro fb h; exact ih (calculateLevelBandStep_zero f g a h)

set_option maxRecDepth 100000 in
theorem calculateLevel_zero {fb : third_octave_filter} (f g : ℚ → ℚ)
    (h : ZeroLevels fb) : ZeroLevels (calculateLevel f g fb) := fun band =>
  levelLoop_zero f g (List.finRange 31) h band

theorem monoBandStep_fields {fb fb' : third_octave_filter} {x : ℚ} {b : Fin 31}
    (h : monoBandStep x fb b = some fb') :
    fb'.samplesCount = fb.samplesCount ∧
    fb'.maxNumberOfSamples = fb.maxNumberOfSamples ∧
    fb'.volume_level = fb.volume_level ∧
    fb'.smoothed_level = fb.smoothed_level ∧
    fb'.bypass = fb.bypass ∧ fb'.channelType = fb.channelType ∧
    (∀ b', (fb'.bands b').num_sections = (fb.bands b').num_sections) := by
  unfold monoBandStep at h
  rw [Option.map_eq_some'] at h
  obtain ⟨⟨y, band'⟩, hr, rfl⟩ := h
  refine ⟨rfl, rfl, rfl, rfl, rfl, rfl, fun b' => ?_⟩
  by_cases hb : b' = b
  · subst hb
    simp only [Function.update_same]
    exact (processFilterBand_num_sections hr).1
  · simp [Function.update_noteq hb]

theorem monoBandStep_some {fb : third_octave_filter} (x : ℚ) (b : Fin 31)
    (h : (fb.bands b).num_sections ≤ 2) :
    ∃ fb', monoBandStep x fb b = some fb' := by
  obtain ⟨y, band', hpf, -⟩ := processFilterBand_some x h
  exact ⟨_, by unfold monoBandStep; rw [hpf, Option.map_some']⟩

theorem accumulateBands_some {fb : third_octave_filter} (x : ℚ) (h : SectionsOK fb) :
    ∃ fb', accumulateBands fb x = some fb' ∧
      fb'.samplesCount = fb.samplesCount ∧
      fb'.maxNumberOfSamples = fb.maxNumberOfSamples ∧
      fb'.volume_level = fb.volume_level ∧
      fb'.smoothed_level = fb.smoothed_level ∧
      fb'.bypass = fb.bypass ∧ fb'.channelType = fb.channelType ∧ SectionsOK fb' := by
  unfold accumulateBands
  refine foldlM_some_of_inv
    (fun s => s.samplesCount = fb.samplesCount ∧
      s.maxNumberOfSamples = fb.maxNumberOfSamples ∧
      s.volume_level = fb.volume_level ∧ s.smoothed_level = fb.smoothed_level ∧
      s.bypass = fb.bypass ∧ s.channelType = fb.channelType ∧ SectionsOK s)
    (monoBandStep x) ?_ (List.finRange 31) fb ⟨rfl, rfl, rfl, rfl, rfl, rfl, h⟩
  intro s b hP
  obtain ⟨hc, hm, hv, hsm, hby, hch, hsec⟩ := hP
  obtain ⟨s', hs'⟩ := monoBandStep_some x b (hsec b)
  obtain ⟨gc, gm, gv, gsm, gby, gch, gsec⟩ := monoBandStep_fields hs'
  exact ⟨s', hs', gc.trans hc, gm.trans hm, gv.trans hv, gsm.trans hsm,
    gby.trans hby, gch.trans hch, fun b' => (gsec b').trans_le (hsec b')⟩

theorem accumulateBands_levels {fb fb' : third_octave_filter} {x : ℚ}
    (h : accumulateBands fb x = some fb') :
    fb'.volume_level = fb.volume_level ∧ fb'.smoothed_level = fb.smoothed_level := by
  unfold accumulateBands at h
  exact foldlM_pres
    (fun s => s.volume_level = fb.volume_level ∧ s.smoothed_level = fb.smoothed_level)
    (monoBandStep x)
    (fun s b s' hs hP =>
      ⟨(monoBandStep_fields hs).2.2.1.trans hP.1,
       (monoBandStep_fields hs).2.2.2.1.trans hP.2⟩)
    (List.finRange 31) fb fb' h ⟨rfl, rfl⟩

theorem sampleStep_no_trigger {fb : third_octave_filter} (f g : ℚ → ℚ) (x : ℚ)
    (hs : SectionsOK fb) (hlt : fb.samplesCount + 1 < (fb.maxNumberOfSamples : ℤ)) :
    ∃ fb', sampleStep f g fb x = some (fb', 0) ∧
      fb'.samplesCount = fb.samplesCount + 1 ∧
      fb'.maxNumberOfSamples = fb.maxNumberOfSamples ∧
      fb'.volume_level = fb.volume_level ∧ fb'.smoothed_level = fb.smoothed_level ∧
      SectionsOK fb' := by
  obtain ⟨fb1, hacc, hc, hm, hv, hsm, hby, hch, hsec⟩ := accumulateBands_some x hs
  refine ⟨{ fb1 with samplesCount := fb1.samplesCount + 1 }, ?_, by rw [hc], hm, hv, hsm, hsec⟩
  unfold sampleStep
  rw [hacc, Option.map_some']
  have hcond : ¬ ((fb1.maxNumberOfSamples : ℤ) ≤ fb1.samplesCount + 1) := by
    rw [hm, hc]; omega
  simp only [if_neg hcond]

theorem sampleStep_trigger {fb : third_octave_filter} (f g : ℚ → ℚ) (x : ℚ)
    (hs : SectionsOK fb) (hge : (fb.maxNumberOfSamples : ℤ) ≤ fb.samplesCount + 1) :
    ∃ fb', sampleStep f g fb x = some (fb', 1) ∧
      fb'.samplesCount = 0 ∧
      fb'.maxNumberOfSamples = fb.maxNumberOfSamples ∧
      SectionsOK fb' := by
  obtain ⟨fb1, hacc, hc, hm, hv, hsm, hby, hch, hsec⟩ := accumulateBands_some x hs
  have hcond : (fb1.maxNumberOfSamples : ℤ) ≤ fb1.samplesCount + 1 := by
    rw [hm, hc]; exact hge
  refine ⟨calculateLevel f g { fb1 with samplesCount := fb1.samplesCount + 1 }, ?_,
    calculateLevel_samplesCount f g _, ?_, ?_⟩
  · unfold sampleStep
    rw [hacc, Option.map_some']
    simp only [if_pos hcond]
  · exact (calculateLevel_fields f g _).2.1.trans hm
  · intro b
    have hb := (calculateLevel_fields f g
      { fb1 with samplesCount := fb1.samplesCount + 1 }).1
    rw [hb]
    exact hsec b

theorem sampleStep_zero {fb fb' : third_octave_filter} {t : ℕ} {f g : ℚ → ℚ} {x : ℚ}
    (h : sampleStep f g fb x = some (fb', t)) (hz : ZeroLevels fb) : ZeroLevels fb' := by
  unfold sampleStep at h
  rw [Option.map_eq_some'] at h
  obtain ⟨fb1, hacc, heq⟩ := h
  have hlv := accumulateBands_levels hacc
  have hz2 : ZeroLevels { fb1 with samplesCount := fb1.samplesCount + 1 } := by
    intro b
    constructor
    · show fb1.volume_level b = 0
      rw [hlv.1]; exact (hz b).1
    · show fb1.smoothed_level b = 0
      rw [hlv.2]; exact (hz b).2
  by_cases hcond : ((({ fb1 with samplesCount := fb1.samplesCount + 1 } :
      third_octave_filter).maxNumberOfSamples : ℤ) ≤
      ({ fb1 with samplesCount := fb1.samplesCount + 1 } :
      third_octave_filter).samplesCount)
  · rw [if_pos hcond] at heq
    obtain ⟨rfl, -⟩ := Prod.mk.injEq .. ▸ heq
    exact calculateLevel_zero f g hz2
  · rw [if_neg hcond] at heq
    obtain ⟨rfl, -⟩ := Prod.mk.injEq .. ▸ heq
    exact hz2

theorem stereoBandStep_fields {fb fb' : third_octave_filter} {l r : ℚ} {b : Fin 31}
    (h : stereoBandStep l r fb b = some fb') :
    fb'.samplesCount = fb.samplesCount ∧
    fb'.maxNumberOfSamples = fb.maxNumberOfSamples ∧
    fb'.volume_level = fb.volume_level ∧
    fb'.smoothed_level = fb.smoothed_level ∧
    (∀ b', (fb'.bands b').num_sections = (fb.bands b').num_sections) := by
  unfold stereoBandStep at h
  rw [Option.bind_eq_some] at h
  obtain ⟨⟨yl, bl⟩, hl, h⟩ := h
  rw [Option.map_eq_some'] at h
  obtain ⟨⟨yr, br⟩, hr, rfl⟩ := h
  refine ⟨rfl, rfl, rfl, rfl, fun b' => ?_⟩
  by_cases hb : b' = b
  · subst hb
    simp only [Function.update_same]
    exact (processFilterBand_num_sections hr).1.trans (processFilterBand_num_sections hl).1
  · simp [Function.update_noteq hb]

theorem stereoBandStep_some {fb : third_octave_filter} (l r : ℚ) (b : Fin 31)
    (h : (fb.bands b).num_sections ≤ 2) :
    ∃ fb', stereoBandStep l r fb b = some fb' := by
  obtain ⟨yl, bl, hl, hnsl⟩ := processFilterBand_some l h
  obtain ⟨yr, br, hr, -⟩ := @processFilterBand_some bl r (by rw [hnsl]; exact h)
  exact ⟨_, by unfold stereoBandStep; rw [hl, Option.some_bind, hr, Option.map_some']⟩

theorem stereoFold_some {fb : third_octave_filter} (l r : ℚ) (h : SectionsOK fb) :
    ∃ fb', List.foldlM (stereoBandStep l r) fb (List.finRange 31) = some fb' ∧
      fb'.samplesCount = fb.samplesCount ∧
      fb'.maxNumberOfSamples = fb.maxNumberOfSamples ∧
      fb'.volume_level = fb.volume_level ∧
      fb'.smoothed_level = fb.smoothed_level ∧ SectionsOK fb' := by
  refine foldlM_some_of_inv
    (fun s => s.samplesCount = fb.samplesCount ∧
      s.maxNumberOfSamples = fb.maxNumberOfSamples ∧
      s.volume_level = fb.volume_level ∧ s.smoothed_level = fb.smoothed_level ∧
      SectionsOK s)
    (stereoBandStep l r) ?_ (List.finRange 31) fb ⟨rfl, rfl, rfl, rfl, h⟩
  intro s b hP
  obtain ⟨hc, hm, hv, hsm, hsec⟩ := hP
  obtain ⟨s', hs'⟩ := stereoBandStep_some l r b (hsec b)
  obtain ⟨gc, gm, gv, gsm, gsec⟩ := stereoBandStep_fields hs'
  exact ⟨s', hs', gc.trans hc, gm.trans hm, gv.trans hv, gsm.trans hsm,
    fun b' => (gsec b').trans_le (hsec b')⟩

theorem stereoPairStep_no_trigger {fb : third_octave_filter} (f g : ℚ → ℚ) (l r : ℚ)
    (hs : SectionsOK fb) (hlt : fb.samplesCount + 2 < (fb.maxNumberOfSamples : ℤ)) :
    ∃ fb', stereoPairStep f g fb l r = some (fb', 0) ∧
      stereoAccumPair fb (l, r) = some fb' ∧
      fb'.samplesCount = fb.samplesCount + 2 ∧
      fb'.maxNumberOfSamples = fb.maxNumberOfSamples ∧
      fb'.volume_level = fb.volume_level ∧ fb'.smoothed_level = fb.smoothed_level ∧
      SectionsOK fb' := by
  obtain ⟨fb1, hfold, hc, hm, hv, hsm, hsec⟩ := stereoFold_some l r hs
  have hcond : ¬ ((fb1.maxNumberOfSamples : ℤ) ≤ fb1.samplesCount + 2) := by
    rw [hm, hc]; omega
  refine ⟨{ fb1 with samplesCount := fb1.samplesCount + 2 }, ?_, ?_, by rw [hc], hm, hv,
    hsm, hsec⟩
  · unfold stereoPairStep
    rw [hfold, Option.map_some']
    simp only [if_neg hcond]
  · unfold stereoAccumPair
    rw [hfold, Option.map_some']

theorem stereoPairStep_zero {fb fb' : third_octave_filter} {t : ℕ} {f g : ℚ → ℚ} {l r : ℚ}
    (h : stereoPairStep f g fb l r = some (fb', t)) (hz : ZeroLevels fb) : ZeroLevels fb' := by
  unfold stereoPairStep at h
  rw [Option.map_eq_some'] at h
  obtain ⟨fb1, hfold, heq⟩ := h
  have hlv : fb1.volume_level = fb.volume_level ∧ fb1.smoothed_level = fb.smoothed_level :=
    foldlM_pres
      (fun s => s.volume_level = fb.volume_level ∧ s.smoothed_level = fb.smoothed_level)
      (stereoBandStep l r)
      (fun s b s' hs hP =>
        ⟨(stereoBandStep_fields hs).2.2.1.trans hP.1,
         (stereoBandStep_fields hs).2.2.2.1.trans hP.2⟩)
      (List.finRange 31) fb fb1 hfold ⟨rfl, rfl⟩
  have hz2 : ZeroLevels { fb1 with samplesCount := fb1.samplesCount + 2 } := by
    intro b
    constructor
    · show fb1.volume_level b = 0
      rw [hlv.1]; exact (hz b).1
    · show fb1.smoothed_level b = 0
      rw [hlv.2]; exact (hz b).2
  by_cases hcond : ((({ fb1 with samplesCount := fb1.samplesCount + 2 } :
      third_octave_filter).maxNumberOfSamples : ℤ) ≤
      ({ fb1 with samplesCount := fb1.samplesCount + 2 } :
      third_octave_filter).samplesCount)
  · rw [if_pos hcond] at heq
    obtain ⟨rfl, -⟩ := Prod.mk.injEq .. ▸ heq
    exact calculateLevel_zero f g hz2
  · rw [if_neg hcond] at heq
    obtain ⟨rfl, -⟩ := Prod.mk.injEq .. ▸ heq
    exact hz2

theorem twoStepList {P : List ℚ → Prop} (h0 : P []) (h1 : ∀ x, P [x])
    (h2 : ∀ x y rest, P rest → P (x :: y :: rest)) : ∀ data, P data := by
  have key : ∀ (n : ℕ) (l : List ℚ), l.length ≤ n → P l := by
    intro n
    induction n with
    | zero =>
      intro l hl
      rcases l with - | ⟨x, l⟩
      · exact h0
      · simp at hl
    | succ n ih =>
      intro l hl
      rcases l with - | ⟨x, - | ⟨y, rest⟩⟩
      · exact h0
      · exact h1 x
      · refine h2 x y rest (ih rest ?_)
        simp only [List.length_cons] at hl
        omega
  exact fun data => key data.length data le_rfl

theorem numLeftSamples_eq : ∀ data : List ℚ, numLeftSamples data = (data.length + 1) / 2 := by
  refine twoStepList rfl (fun x => by simp [numLeftSamples]) ?_
  intro x y rest ih
  simp only [numLeftSamples, ih, List.length_cons]
  omega

theorem numLeftSamples_zero : ∀ data : List ℚ, numLeftSamples data = 0 → data = [] := by
  refine twoStepList (fun _ => rfl) ?_ ?_
  · intro x h
    exact absurd h (by simp [numLeftSamples])
  · intro x y rest _ h
    exact absurd h (by simp [numLeftSamples])

theorem processLeft_zero (f g : ℚ → ℚ) :
    ∀ data : List ℚ, ∀ ⦃fb fb' : third_octave_filter⦄ ⦃t : ℕ⦄,
      processLeft f g fb data = some (fb', t) → ZeroLevels fb → ZeroLevels fb' := by
  refine twoStepList ?_ ?_ ?_
  · intro fb fb' t h hz
    simp only [processLeft] at h
    obtain ⟨rfl, -⟩ := Prod.mk.injEq .. ▸ (Option.some.inj h)
    exact hz
  · intro x fb fb' t h hz
    exact sampleStep_zero (by simpa only [processLeft] using h) hz
  · intro x y rest ih fb fb' t h hz
    simp only [processLeft] at h
    rw [Option.bind_eq_some] at h
    obtain ⟨⟨fb1, t1⟩, hstep, h⟩ := h
    rw [Option.map_eq_some'] at h
    obtain ⟨⟨fb2, t2⟩, hrec, heq⟩ := h
    obtain ⟨rfl, -⟩ := Prod.mk.injEq .. ▸ heq
    exact ih hrec (sampleStep_zero hstep hz)

theorem processRight_zero (f g : ℚ → ℚ) :
    ∀ data : List ℚ, ∀ ⦃fb fb' : third_octave_filter⦄ ⦃t : ℕ⦄,
      processRight f g fb data = some (fb', t) → ZeroLevels fb → ZeroLevels fb' := by
  refine twoStepList ?_ ?_ ?_
  · intro fb fb' t h hz
    simp only [processRight] at h
    obtain ⟨rfl, -⟩ := Prod.mk.injEq .. ▸ (Option.some.inj h)
    exact hz
  · intro x fb fb' t h hz
    simp only [processRight] at h
    obtain ⟨rfl, -⟩ := Prod.mk.injEq .. ▸ (Option.some.inj h)
    exact hz
  · intro x y rest ih fb fb' t h hz
    simp only [processRight] at h
    rw [Option.bind_eq_some] at h
    obtain ⟨⟨fb1, t1⟩, hstep, h⟩ := h
    rw [Option.map_eq_some'] at h
    obtain ⟨⟨fb2, t2⟩, hrec, heq⟩ := h
    obtain ⟨rfl, -⟩ := Prod.mk.injEq .. ▸ heq
    exact ih hrec (sampleStep_zero hstep hz)

theorem processStereo_zero (f g : ℚ → ℚ) :
    ∀ data : List ℚ, ∀ ⦃fb fb' : third_octave_filter⦄ ⦃t : ℕ⦄,
      processStereo f g fb data = some (fb', t) → ZeroLevels fb → ZeroLevels fb' := by
  refine twoStepList ?_ ?_ ?_
  · intro fb fb' t h hz
    simp only [processStereo] at h
    obtain ⟨rfl, -⟩ := Prod.mk.injEq .. ▸ (Option.some.inj h)
    exact hz
  · intro x fb fb' t h hz
    exact absurd h (by simp [processStereo])
  · intro x y rest ih fb fb' t h hz
    simp only [processStereo] at h
    rw [Option.bind_eq_some] at h
    obtain ⟨⟨fb1, t1⟩, hstep, h⟩ := h
    rw [Option.map_eq_some'] at h
    obtain ⟨⟨fb2, t2⟩, hrec, heq⟩ := h
    obtain ⟨rfl, -⟩ := Prod.mk.injEq .. ▸ heq
    exact ih hrec (stereoPairStep_zero hstep hz)

theorem toProcResult_ok {o : Option (third_octave_filter × ℕ)}
    {fb : third_octave_filter} {t : ℕ}
    (h : toProcResult o = ProcResult.ok fb t) : o = some (fb, t) := by
  cases o with
  | none => exact absurd h (by simp [toProcResult])
  | some p =>
    obtain ⟨fb0, t0⟩ := p
    simp only [toProcResult] at h
    rw [ProcResult.ok.injEq] at h
    obtain ⟨rfl, rfl⟩ := h
    rfl

theorem process_some (f g : ℚ → ℚ) (fb : third_octave_filter) (data : List ℚ) :
    third_octave_filter_process f g (some fb) data =
      if fb.bypass = 1 then ProcResult.ok fb 0
      else if fb.channelType = 0 then toProcResult (processLeft f g fb data)
      else if fb.channelType = 1 then toProcResult (processRight f g fb data)
      else if fb.channelType = 2 then toProcResult (processStereo f g fb data)
      else ProcResult.ok fb 0 := rfl

theorem process_zero {f g : ℚ → ℚ} {fb : third_octave_filter} {data : List ℚ}
    {fb' : third_octave_filter} {t : ℕ}
    (h : third_octave_filter_process f g (some fb) data = ProcResult.ok fb' t)
    (hz : ZeroLevels fb) : ZeroLevels fb' := by
  rw [process_some] at h
  by_cases h1 : fb.bypass = 1
  · rw [if_pos h1, ProcResult.ok.injEq] at h
    obtain ⟨rfl, -⟩ := h
    exact hz
  · rw [if_neg h1] at h
    by_cases h2 : fb.channelType = 0
    · rw [if_pos h2] at h
      exact processLeft_zero f g data (toProcResult_ok h) hz
    · rw [if_neg h2] at h
      by_cases h3 : fb.channelType = 1
      · rw [if_pos h3] at h
        exact processRight_zero f g data (toProcResult_ok h) hz
      · rw [if_neg h3] at h
        by_cases h4 : fb.channelType = 2
        · rw [if_pos h4] at h
          exact processStereo_zero f g data (toProcResult_ok h) hz
        · rw [if_neg h4, ProcResult.ok.injEq] at h
          obtain ⟨rfl, -⟩ := h
          exact hz

theorem resetFilterState_levels {fb fb' : third_octave_filter}
    (h : resetFilterState fb = some fb') :
    fb'.volume_level = fb.volume_level ∧ fb'.smoothed_level = fb.smoothed_level ∧
    fb'.sample_rate = fb.sample_rate ∧ fb'.integrationTime = fb.integrationTime ∧
    fb'.maxNumberOfSamples = fb.maxNumberOfSamples ∧
    fb'.samplesCount = fb.samplesCount ∧ fb'.bypass = fb.bypass ∧
    fb'.channelType = fb.channelType ∧ fb'.mic_constant = fb.mic_constant := by
  unfold resetFilterState at h
  rw [Option.map_eq_some'] at h
  obtain ⟨bands', -, rfl⟩ := h
  exact ⟨rfl, rfl, rfl, rfl, rfl, rfl, rfl, rfl, rfl⟩

theorem alloc_zero {sr : ℚ} {ord : ℤ} {fb : third_octave_filter}
    (h : third_octave_filter_alloc sr ord = some fb) : ZeroLevels fb := by
  simp only [third_octave_filter_alloc, Option.bind_eq_some, Option.map_eq_some'] at h
  obtain ⟨bands0, -, fb1, hreset, rfl⟩ := h
  have hlv := resetFilterState_levels hreset
  intro b
  constructor
  · show fb1.volume_level b = 0
    rw [hlv.1]
  · show fb1.smoothed_level b = 0
    rw [hlv.2.1]

/-- C6: in every bank state reachable after allocation through any sequence
of processing calls (any channel mode, any inputs) and configuration
changes, every band's published `volume_level` equals its `smoothed_level`
and both are still their initial value 0: the `level_db` computed inside
`calculateLevel` is never stored into any state variable (the first-update
branch copies the old `volume_level`, the other branch blends the old
`volume_level` and `smoothed_level`), so the published levels never leave
zero whatever audio is fed in. -/
theorem c6_levels_never_change :
    ∀ fb : third_octave_filter, ReachableState fb →
      ∀ band, fb.volume_level band = 0 ∧ fb.smoothed_level band = 0 ∧
        fb.volume_level band = fb.smoothed_level band := by
  intro fb h
  have hz : ZeroLevels fb := by
    induction h with
    | alloc sr ord fb h => exact alloc_zero h
    | process f g fb data fb' t hr hp ih => exact process_zero hp ih
    | config fb bp mc ch it ms hr ih => intro b; exact ih b
  intro band
  exact ⟨(hz band).1, (hz band).2, (hz band).1.trans (hz band).2.symm⟩

set_option maxRecDepth 1000000 in
/-- Witness for C6 at the concrete reachable state produced by
`third_octave_filter_alloc 48000 2`. -/
theorem c6_witness :
    ∃ fb, third_octave_filter_alloc 48000 2 = some fb ∧
      fb.volume_level 0 = 0 ∧ fb.smoothed_level 0 = 0 ∧
      fb.volume_level 0 = fb.smoothed_level 0 := by
  have hsome : (third_octave_filter_alloc 48000 2).isSome = true := by decide
  obtain ⟨fb, hfb⟩ := Option.isSome_iff_exists.mp hsome
  have h := c6_levels_never_change fb (ReachableState.alloc 48000 2 fb hfb) 0
  exact ⟨fb, hfb, h.1, h.2.1, h.2.2⟩

theorem processLeft_single_trigger (f g : ℚ → ℚ) :
    ∀ data : List ℚ, ∀ ⦃fb : third_octave_filter⦄,
      SectionsOK fb → 1 ≤ numLeftSamples data →
      fb.samplesCount + (numLeftSamples data : ℤ) = (fb.maxNumberOfSamples : ℤ) →
      ∃ fb', processLeft f g fb data = some (fb', 1) ∧ fb'.samplesCount = 0 := by
  refine twoStepList ?_ ?_ ?_
  · intro fb hs h1 heq
    simp [numLeftSamples] at h1
  · intro x fb hs h1 heq
    have hge : (fb.maxNumberOfSamples : ℤ) ≤ fb.samplesCount + 1 := by
      simp only [numLeftSamples] at heq
      omega
    obtain ⟨fb', hstep, hc, hm, hsec⟩ := sampleStep_trigger f g x hs hge
    exact ⟨fb', by simpa only [processLeft] using hstep, hc⟩
  · intro x y rest ih fb hs h1 heq
    simp only [numLeftSamples] at heq
    by_cases hr : numLeftSamples rest = 0
    · have hrest : rest = [] := numLeftSamples_zero rest hr
      subst hrest
      have hge : (fb.maxNumberOfSamples : ℤ) ≤ fb.samplesCount + 1 := by
        rw [hr] at heq
        omega
      obtain ⟨fbT, hstep, hc, hm, hsec⟩ := sampleStep_trigger f g x hs hge
      refine ⟨fbT, ?_, hc⟩
      simp only [processLeft]
      rw [hstep, Option.some_bind]
      simp only [processLeft, Option.map_some']
    · have h1' : 1 ≤ numLeftSamples rest := Nat.one_le_iff_ne_zero.mpr hr
      have hlt : fb.samplesCount + 1 < (fb.maxNumberOfSamples : ℤ) := by
        push_cast at heq
        omega
      obtain ⟨fb1, hstep, hc1, hm1, hv1, hsm1, hs1⟩ := sampleStep_no_trigger f g x hs hlt
      have heq1 : fb1.samplesCount + (numLeftSamples rest : ℤ) =
          (fb1.maxNumberOfSamples : ℤ) := by
        rw [hc1, hm1]
        push_cast at heq ⊢
        omega
      obtain ⟨fb2, hrec, hc2⟩ := ih hs1 h1' heq1
      refine ⟨fb2, ?_, hc2⟩
      simp only [processLeft]
      rw [hstep, Option.some_bind, hrec, Option.map_some']
      rfl

theorem alloc_maxNumberOfSamples {sr : ℚ} {ord : ℤ} {fb : third_octave_filter}
    (h : third_octave_filter_alloc sr ord = some fb) :
    fb.maxNumberOfSamples = (⌊(sr / 1000) * (125 : ℚ)⌋).toNat := by
  simp only [third_octave_filter_alloc, Option.bind_eq_some, Option.map_eq_some'] at h
  obtain ⟨bands0, -, fb1, hreset, rfl⟩ := h
  have hlv := resetFilterState_levels hreset
  show (⌊(fb1.sample_rate / 1000) * ((fb1.integrationTime : ℤ) : ℚ)⌋).toNat = _
  rw [hlv.2.2.1, hlv.2.2.2.1]
  norm_num

/-- C8: the integration threshold is computed as
`floor(sample_rate/1000 * integrationTime)` (for these integer-valued
intermediate results the C `float` arithmetic is exact, so the rational
model coincides with it); for `sample_rate = 48000` and
`integrationTime = 125` it is exactly 6000, both through
`calculateSamplesIntegration` and through `third_octave_filter_alloc`;
and with that configuration, processing a buffer holding exactly 6000
left-channel samples (12000 interleaved floats) from a zero count runs
`calculateLevel` exactly once and leaves `samplesCount` at zero. -/
theorem c8_threshold_and_single_window (f g : ℚ → ℚ) (fb : third_octave_filter)
    (data : List ℚ) (hsr : fb.sample_rate = 48000) (hit : fb.integrationTime = 125)
    (hby : ¬ fb.bypass = 1) (hch : fb.channelType = 0)
    (hc0 : fb.samplesCount = 0) (hmax : fb.maxNumberOfSamples = 6000)
    (hs : SectionsOK fb) (hlen : data.length = 12000) :
    (calculateSamplesIntegration fb).maxNumberOfSamples =
      (⌊(fb.sample_rate / 1000) * (fb.integrationTime : ℚ)⌋).toNat ∧
    (calculateSamplesIntegration fb).maxNumberOfSamples = 6000 ∧
    (∀ fbA, third_octave_filter_alloc 48000 2 = some fbA →
      fbA.maxNumberOfSamples = 6000) ∧
    ∃ fb', third_octave_filter_process f g (some fb) data = ProcResult.ok fb' 1 ∧
      fb'.samplesCount = 0 := by
  refine ⟨rfl, ?_, ?_, ?_⟩
  · show (⌊(fb.sample_rate / 1000) * (fb.integrationTime : ℚ)⌋).toNat = 6000
    rw [hsr, hit]
    norm_num
    rfl
  · intro fbA hA
    rw [alloc_maxNumberOfSamples hA]
    norm_num
    rfl
  · have hn : numLeftSamples data = 6000 := by
      rw [numLeftSamples_eq, hlen]
    have heq : fb.samplesCount + (numLeftSamples data : ℤ) =
        (fb.maxNumberOfSamples : ℤ) := by
      rw [hn, hc0, hmax]
      omega
    obtain ⟨fb', hp, hc⟩ := processLeft_single_trigger f g data hs (by omega) heq
    refine ⟨fb', ?_, hc⟩
    rw [process_some, if_neg hby, if_pos hch, hp]
    rfl

/-- Witness for C8 at the concrete bank `leftBank` and a 12000-sample zero
buffer. -/
theorem c8_witness :
    leftBank.sample_rate = 48000 ∧ leftBank.integrationTime = 125 ∧
    ¬ leftBank.bypass = 1 ∧ leftBank.channelType = 0 ∧
    leftBank.samplesCount = 0 ∧ leftBank.maxNumberOfSamples = 6000 ∧
    SectionsOK leftBank ∧ (List.replicate 12000 (0 : ℚ)).length = 12000 ∧
    ((calculateSamplesIntegration leftBank).maxNumberOfSamples = 6000 ∧
      ∃ fb', third_octave_filter_process id id (some leftBank)
          (List.replicate 12000 (0 : ℚ)) = ProcResult.ok fb' 1 ∧
        fb'.samplesCount = 0) := by
  have hs : SectionsOK leftBank := by decide
  have hlen : (List.replicate 12000 (0 : ℚ)).length = 12000 := by
    rw [List.length_replicate]
  have h := c8_threshold_and_single_window id id leftBank
    (List.replicate 12000 (0 : ℚ)) rfl rfl (by norm_num [leftBank]) rfl rfl rfl hs hlen
  exact ⟨rfl, rfl, by norm_num [leftBank], rfl, rfl, rfl, hs, hlen, h.2.1, h.2.2.2⟩

theorem processStereo_pairs (f g : ℚ → ℚ) :
    ∀ ps : List (ℚ × ℚ), ∀ ⦃fb : third_octave_filter⦄,
      SectionsOK fb → fb.samplesCount + 2 * ps.length < (fb.maxNumberOfSamples : ℤ) →
      ∃ fb', processStereo f g fb (flattenPairs ps) = some (fb', 0) ∧
        List.foldlM stereoAccumPair fb ps = some fb' ∧
        fb'.samplesCount = fb.samplesCount + 2 * ps.length ∧
        fb'.maxNumberOfSamples = fb.maxNumberOfSamples ∧ SectionsOK fb' := by
  intro ps
  induction ps with
  | nil =>
    intro fb hs hlt
    exact ⟨fb, rfl, rfl, by simp, rfl, hs⟩
  | cons p ps ih =>
    intro fb hs hlt
    obtain ⟨l, r⟩ := p
    have hlt1 : fb.samplesCount + 2 < (fb.maxNumberOfSamples : ℤ) := by
      simp only [List.length_cons] at hlt
      push_cast at hlt
      omega
    obtain ⟨fb1, hstep, hap, hc1, hm1, hv1, hsm1, hs1⟩ :=
      stereoPairStep_no_trigger f g l r hs hlt1
    have hlt2 : fb1.samplesCount + 2 * ps.length < (fb1.maxNumberOfSamples : ℤ) := by
      rw [hc1, hm1]
      simp only [List.length_cons] at hlt
      push_cast at hlt ⊢
      omega
    obtain ⟨fb2, hrec, hfold, hc2, hm2, hs2⟩ := ih hs1 hlt2
    refine ⟨fb2, ?_, ?_, ?_, hm2.trans hm1, hs2⟩
    · simp only [flattenPairs, processStereo]
      rw [hstep, Option.some_bind, hrec, Option.map_some']
      rfl
    · rw [List.foldlM_cons, hap]
      exact hfold
    · rw [hc2, hc1]
      simp only [List.length_cons]
      push_cast
      ring

theorem stereoFold_char (l r : ℚ) :
    ∀ todo : List (Fin 31), todo.Nodup →
      ∀ ⦃fb fb' : third_octave_filter⦄,
        List.foldlM (stereoBandStep l r) fb todo = some fb' →
        (∀ b, b ∉ todo →
          fb'.bands b = fb.bands b ∧ fb'.temporal_sum b = fb.temporal_sum b) ∧
        (∀ b, b ∈ todo → ∃ yl bl yr br,
          processFilterBand (fb.bands b) l = some (yl, bl) ∧
          processFilterBand bl r = some (yr, br) ∧
          fb'.bands b = br ∧
          fb'.temporal_sum b = (fb.temporal_sum b + yl ^ 2) + yr ^ 2) := by
  intro todo
  induction todo with
  | nil =>
    intro _ fb fb' h
    obtain rfl : fb = fb' := by simpa using h
    exact ⟨fun b _ => ⟨rfl, rfl⟩, fun b hb => absurd hb (List.not_mem_nil b)⟩
  | cons b0 todo ih =>
    intro hnd fb fb' h
    obtain ⟨hnd0, hndtodo⟩ : b0 ∉ todo ∧ todo.Nodup := List.nodup_cons.mp hnd
    simp only [List.foldlM] at h
    cases hstep : stereoBandStep l r fb b0 with
    | none => rw [hstep] at h; exact absurd h (by simp)
    | some fb1 =>
      rw [hstep] at h
      have hrest : List.foldlM (stereoBandStep l r) fb1 todo = some fb' := h
      unfold stereoBandStep at hstep
      rw [Option.bind_eq_some] at hstep
      obtain ⟨⟨yl, bl⟩, hl, hstep⟩ := hstep
      rw [Option.map_eq_some'] at hstep
      obtain ⟨⟨yr, br⟩, hr, rfl⟩ := hstep
      obtain ⟨hout, hin⟩ := ih hndtodo hrest
      constructor
      · intro b hb
        have hb0 : b ≠ b0 := fun e => hb (e ▸ List.mem_cons_self b0 todo)
        have hbt : b ∉ todo := fun e => hb (List.mem_cons_of_mem b0 e)
        obtain ⟨g1, g2⟩ := hout b hbt
        refine ⟨?_, ?_⟩
        · rw [g1]
          exact Function.update_noteq hb0 _ _
        · rw [g2]
          exact Function.update_noteq hb0 _ _
      · intro b hb
        rcases List.mem_cons.mp hb with rfl | hbt
        · obtain ⟨g1, g2⟩ := hout b hnd0
          refine ⟨yl, bl, yr, br, hl, hr, ?_, ?_⟩
          · rw [g1]
            exact Function.update_same _ _ _
          · rw [g2]
            exact Function.update_same _ _ _
        · have hb0 : b ≠ b0 := fun e => hnd0 (e ▸ hbt)
          obtain ⟨yl', bl', yr', br', hl', hr', g1, g2⟩ := hin b hbt
          have e1 : (Function.update fb.bands b0 br) b = fb.bands b :=
            Function.update_noteq hb0 _ _
          have e2 : (Function.update fb.temporal_sum b0
              ((fb.temporal_sum b0 + yl ^ 2) + yr ^ 2)) b = fb.temporal_sum b :=
            Function.update_noteq hb0 _ _
          refine ⟨yl', bl', yr', br', ?_, hr', g1, ?_⟩
          · rw [← e1]
            exact hl'
          · rw [g2]
            show (Function.update fb.temporal_sum b0 _ b + yl' ^ 2) + yr' ^ 2 = _
            rw [e2]
      
theorem stereoAccumPair_char {fb fb' : third_octave_filter} {p : ℚ × ℚ}
    (h : stereoAccumPair fb p = some fb') :
    fb'.samplesCount = fb.samplesCount + 2 ∧
    ∀ b, ∃ yl bl yr br,
      processFilterBand (fb.bands b) p.1 = some (yl, bl) ∧
      processFilterBand bl p.2 = some (yr, br) ∧
      fb'.bands b = br ∧
      fb'.temporal_sum b = (fb.temporal_sum b + yl ^ 2) + yr ^ 2 := by
  obtain ⟨l, r⟩ := p
  unfold stereoAccumPair at h
  rw [Option.map_eq_some'] at h
  obtain ⟨fb1, hfold, rfl⟩ := h
  have hchar := stereoFold_char l r (List.finRange 31) (List.nodup_finRange 31) hfold
  constructor
  · show fb1.samplesCount + 2 = fb.samplesCount + 2
    have hc := foldlM_pres (fun s => s.samplesCount = fb.samplesCount)
      (stereoBandStep l r)
      (fun s b s' hs hP => (stereoBandStep_fields hs).1.trans hP)
      (List.finRange 31) fb fb1 hfold rfl
    rw [hc]
  · intro b
    exact hchar.2 b (List.mem_finRange b)

/-- C7: in stereo dual-mono mode, processing a buffer of N interleaved pairs
(no window boundary being crossed) equals folding the per-pair accumulation
step over the pairs: the shared `samplesCount` advances by exactly 2 per
pair (2N in total, and exactly 2 across each single pair), and within each
pair every band filters the left sample and then the right sample through
the *same* band state — the right pass starting from the state the left
pass produced — adding both squared outputs into that band's single
temporal sum. -/
theorem c7_stereo_dual_mono (f g : ℚ → ℚ) (fb : third_octave_filter)
    (ps : List (ℚ × ℚ)) (hby : ¬ fb.bypass = 1) (hch : fb.channelType = 2)
    (hs : SectionsOK fb)
    (hlt : fb.samplesCount + 2 * ps.length < (fb.maxNumberOfSamples : ℤ)) :
    ∃ fb', third_octave_filter_process f g (some fb) (flattenPairs ps) =
        ProcResult.ok fb' 0 ∧
      List.foldlM stereoAccumPair fb ps = some fb' ∧
      fb'.samplesCount = fb.samplesCount + 2 * ps.length ∧
      (∀ (p : ℚ × ℚ) (s s' : third_octave_filter), stereoAccumPair s p = some s' →
        s'.samplesCount = s.samplesCount + 2 ∧
        ∀ b, ∃ yl bl yr br,
          processFilterBand (s.bands b) p.1 = some (yl, bl) ∧
          processFilterBand bl p.2 = some (yr, br) ∧
          s'.bands b = br ∧
          s'.temporal_sum b = (s.temporal_sum b + yl ^ 2) + yr ^ 2) := by
  obtain ⟨fb', hp, hfold, hc, hm, hsec⟩ := processStereo_pairs f g ps hs hlt
  refine ⟨fb', ?_, hfold, hc, fun p s s' h => stereoAccumPair_char h⟩
  rw [process_some, if_neg hby, if_neg (by rw [hch]; decide),
    if_neg (by rw [hch]; decide), if_pos hch, hp]
  rfl

/-- Witness for C7 at a concrete stereo bank and the single pair (1, 2). -/
theorem c7_witness :
    ¬ ({ leftBank with channelType := 2 } : third_octave_filter).bypass = 1 ∧
    ({ leftBank with channelType := 2 } : third_octave_filter).channelType = 2 ∧
    SectionsOK { leftBank with channelType := 2 } ∧
    ({ leftBank with channelType := 2 } : third_octave_filter).samplesCount +
      2 * (([((1 : ℚ), (2 : ℚ))] : List (ℚ × ℚ)).length) <
      (({ leftBank with channelType := 2 } : third_octave_filter).maxNumberOfSamples : ℤ) ∧
    ∃ fb', third_octave_filter_process id id
        (some { leftBank with channelType := 2 })
        (flattenPairs [((1 : ℚ), (2 : ℚ))]) = ProcResult.ok fb' 0 ∧
      List.foldlM stereoAccumPair { leftBank with channelType := 2 }
        [((1 : ℚ), (2 : ℚ))] = some fb' ∧
      fb'.samplesCount =
        ({ leftBank with channelType := 2 } : third_octave_filter).samplesCount +
          2 * (([((1 : ℚ), (2 : ℚ))] : List (ℚ × ℚ)).length) := by
  have hby : ¬ ({ leftBank with channelType := 2 } :
      third_octave_filter).bypass = 1 := by decide
  have hs : SectionsOK { leftBank with channelType := 2 } := by decide
  have hlt : ({ leftBank with channelType := 2 } :
      third_octave_filter).samplesCount +
      2 * (([((1 : ℚ), (2 : ℚ))] : List (ℚ × ℚ)).length) <
      (({ leftBank with channelType := 2 } :
        third_octave_filter).maxNumberOfSamples : ℤ) := by decide
  obtain ⟨fb', h1, h2, h3, -⟩ :=
    c7_stereo_dual_mono id id { leftBank with channelType := 2 }
      [((1 : ℚ), (2 : ℚ))] hby rfl hs hlt
  exact ⟨hby, rfl, hs, hlt, fb', h1, h2, h3⟩
